import Mathlib

/-!
Shallow embedding of the valorant-coach analysis pipeline
(src/analysis/game_analyzer.py, src/analysis/behavior_analyzer.py,
src/analysis/skill_assessor.py, src/coaching/coach.py,
src/capture/frame_processor.py) together with theorems settling the
frozen claims about it.

Modelling conventions:
* Python floats are modelled as exact rationals (ℚ); Python ints as ℤ/ℕ.
* Python floor division `//` on ints is `Int.fdiv`.
* A Python function that can raise (here: only ZeroDivisionError in
  `_assess_crosshair_placement` when `bbox[3] // 2 == 0`) is modelled with
  `Option`, `none` standing for the raised exception; callers propagate
  `none` exactly where Python would propagate the exception.
* `collections.deque(maxlen = n)` is a list with `appendBounded n`,
  which drops the oldest (front) element when full.
* A `Dict` payload with optional keys is a structure with `Option`
  fields; a falsy (`{}`/`None`) payload is `Option.none` of the whole
  structure.
* `np.sqrt` appears in two kinds of places.  In `_find_closest_enemy`
  it is only used inside strict comparisons of distances between points
  with integer coordinates, and IEEE `sqrt` is strictly monotone on the
  relevant range, so the argmin is computed on squared distances
  directly.  In `_assess_threat_level` / `_assess_engagement_opportunity`
  the square root value itself enters a score; those two scores are not
  touched by any claim, and the embedding takes the square-root function
  `sq : ℚ → ℚ` as an explicit parameter there.
* `time.time()` is an explicit rational parameter `t` of each stateful
  operation.
-/

set_option maxRecDepth 100000

namespace VC

/-- One bounded history step: `deque(maxlen = cap)` append. -/
def appendBounded (cap : Nat) (l : List α) (x : α) : List α :=
  let l2 := l ++ [x]
  l2.drop (l2.length - cap)

/-- `np.mean` over a list of rationals (callers guard against `[]`). -/
def listMean (l : List ℚ) : ℚ := l.sum / l.length

/-- Population variance (`np.var`) of a list of rationals. -/
def listVar (l : List ℚ) : ℚ :=
  listMean (l.map (fun x => (x - listMean l) ^ 2))

/-- Case-insensitive substring test: Python `pat in s.lower()`
(`pat` is a lowercase literal at every call site). -/
def containsLower (s pat : String) : Bool :=
  (s.toLower.splitOn pat).length ≥ 2

/-- `CrosshairInfo` from src/capture/frame_processor.py. -/
structure CrosshairInfo where
  position : ℤ × ℤ
  is_visible : Bool
  color : ℤ × ℤ × ℤ
deriving DecidableEq, Repr

/-- `GameElement` from src/capture/frame_processor.py
(`bbox` is `(x, y, width, height)`). -/
structure GameElement where
  type : String
  confidence : ℚ
  bbox : ℤ × ℤ × ℤ × ℤ
  center : ℤ × ℤ
deriving DecidableEq, Repr

/-- The `movement` sub-dict produced by `FrameProcessor._analyze_movement`. -/
structure MovementData where
  movement_magnitude : ℚ
  is_moving : Bool
  movement_direction : String
deriving DecidableEq, Repr

/-- One frame payload (the dict produced by `FrameProcessor.process_frame`):
optional keys are `Option` fields, list keys default to `[]`. -/
structure FrameData where
  crosshair : Option CrosshairInfo
  enemies : List GameElement
  ui_elements : List GameElement
  movement : Option MovementData
deriving DecidableEq, Repr

/-- `GameEvent` from src/analysis/game_analyzer.py.  The free-form `data`
payload holds only numbers at every construction site. -/
structure GameEvent where
  event_type : String
  timestamp : ℚ
  confidence : ℚ
  data : List (String × ℚ)
  position : Option (ℤ × ℤ)
deriving DecidableEq, Repr

/-- `PerformanceMetrics` from src/analysis/game_analyzer.py. -/
structure PerformanceMetrics where
  accuracy : ℚ
  reaction_time : ℚ
  crosshair_placement : ℚ
  movement_efficiency : ℚ
  game_sense : ℚ
  overall_score : ℚ
deriving DecidableEq, Repr

namespace GameAnalyzer

/-- The mutable state of a `GameAnalyzer` (rolling histories plus the
`current_session` counters; `performance_score` is written once at
construction and never updated). -/
structure State where
  frame_data : List (ℚ × FrameData)
  events : List GameEvent
  performance_history : List PerformanceMetrics
  start_time : ℚ
  frames_processed : Nat
  events_detected : Nat
  performance_score : ℚ
deriving DecidableEq, Repr

/-- A fresh analyzer state (`GameAnalyzer.__init__` at time `t0`). -/
def initState (t0 : ℚ) : State :=
  { frame_data := [], events := [], performance_history := []
    start_time := t0, frames_processed := 0, events_detected := 0
    performance_score := 0 }

/-- Squared distance between two integer points; `_find_closest_enemy`
compares `np.sqrt` of exactly these quantities, and square root is
strictly monotone there, so comparisons agree. -/
def dist2 (p q : ℤ × ℤ) : ℤ :=
  (p.1 - q.1) ^ 2 + (p.2 - q.2) ^ 2

/-- The assumed screen center `(1920 // 2, 1080 // 2)`. -/
def screenCenter : ℤ × ℤ := (960, 540)

/-- `GameAnalyzer._find_closest_enemy`: fold with a strict-improvement
test starting from `min_distance = inf`, so ties keep the earlier enemy. -/
def findClosestEnemy (enemies : List GameElement) : Option GameElement :=
  enemies.foldl
    (fun best e =>
      match best with
      | none => some e
      | some b =>
          if dist2 e.center screenCenter < dist2 b.center screenCenter then
            some e
          else some b)
    none

/-- `GameAnalyzer._assess_crosshair_placement`.  `none` models the
ZeroDivisionError raised when `closest_enemy.bbox[3] // 2 == 0`. -/
def assessCrosshairPlacement (crosshair : CrosshairInfo)
    (enemies : List GameElement) : Option ℚ :=
  if enemies = [] then some (1/2)
  else
    match findClosestEnemy enemies with
    | none => some (1/2)
    | some closest =>
        let h : ℤ := closest.bbox.2.2.2
        let head_level : ℤ := closest.center.2 - Int.fdiv h 3
        let distance : ℤ := |crosshair.position.2 - head_level|
        let max_distance : ℤ := Int.fdiv h 2
        if max_distance = 0 then none
        else some (min 1 (max 0 (1 - (distance : ℚ) / (max_distance : ℚ))))

/-- Python `list(deque)[-n:]`. -/
def lastN (n : Nat) (l : List α) : List α := l.drop (l.length - n)

/-- `GameAnalyzer._assess_crosshair_stability`: variance of the visible
reticle positions over the last 5 stored frames
(`np.var(positions, axis=0).mean()` is the mean of the per-axis
population variances). -/
def assessCrosshairStability (st : State) : ℚ :=
  if st.frame_data.length < 5 then 1/2
  else
    let recent := (lastN 5 st.frame_data).filterMap
      (fun p => match p.2.crosshair with
        | some ch => if ch.is_visible then some ch.position else none
        | none => none)
    if recent.length < 3 then 1/2
    else
      let variance :=
        (listVar (recent.map (fun q => (q.1 : ℚ)))
          + listVar (recent.map (fun q => (q.2 : ℚ)))) / 2
      min 1 (max 0 (1 - variance / 100))

/-- `GameAnalyzer._assess_movement_efficiency` (`none` models a missing
or empty `movement` dict, whose `.get('is_moving', False)` is falsy). -/
def assessMovementEfficiency (movement : Option MovementData) : ℚ :=
  match movement with
  | none => 1/2
  | some m =>
      if !m.is_moving then 1/2
      else if m.movement_magnitude > 10 then 3/10
      else if m.movement_direction ≠ "stationary" ∧ m.movement_magnitude > 1
        then 7/10
      else 1/2

/-- `GameAnalyzer._assess_threat_level`; `sq` is the `np.sqrt` used on
the squared distance to screen center. -/
def assessThreatLevel (sq : ℚ → ℚ) (enemies : List GameElement) : ℚ :=
  if enemies = [] then 0
  else
    let base := (enemies.length : ℚ) * (2/10)
    match findClosestEnemy enemies with
    | none => min 1 base
    | some closest =>
        let d := sq ((dist2 closest.center screenCenter : ℤ) : ℚ)
        min 1 (base + max 0 (1 - d / 1000) * (5/10))

/-- `GameAnalyzer._assess_engagement_opportunity`. -/
def assessEngagementOpportunity (sq : ℚ → ℚ)
    (enemies : List GameElement) : ℚ :=
  if enemies = [] then 0
  else
    let enemy_factor := max 0 (1 - ((enemies.length : ℚ) - 1) * (3/10))
    match findClosestEnemy enemies with
    | none => enemy_factor
    | some closest =>
        let d := sq ((dist2 closest.center screenCenter : ℤ) : ℚ)
        (enemy_factor + max 0 (1 - d / 500)) / 2

/-- Backward scan of `_has_recent_enemy_event`: the most recent event of
the given type (the scan `break`s at the first match). -/
def lastEventOfType (ty : String) (events : List GameEvent) :
    Option GameEvent :=
  events.reverse.find? (fun e => e.event_type == ty)

/-- `GameAnalyzer._has_recent_enemy_event` at current time `t`. -/
def hasRecentEnemyEvent (events : List GameEvent) (t cooldown : ℚ) : Bool :=
  match lastEventOfType "enemy_detected" events with
  | none => false
  | some e => decide (t - e.timestamp < cooldown)

/-- The enemy-detection section of `_detect_events` (at most one event,
guarded by the 2-second cooldown scan). -/
def enemyEventList (events : List GameEvent) (t : ℚ) (fd : FrameData) :
    List GameEvent :=
  if fd.enemies ≠ [] ∧ !hasRecentEnemyEvent events t 2 then
    [{ event_type := "enemy_detected", timestamp := t, confidence := 8/10
       data := [("enemy_count", (fd.enemies.length : ℚ))]
       position := fd.enemies.head?.map (fun e => e.center) }]
  else []

/-- The crosshair-placement section of `_detect_events` for a visible
crosshair with placement quality `pq`. -/
def crosshairEventList (t : ℚ) (ch : CrosshairInfo) (pq : ℚ) :
    List GameEvent :=
  if pq > 8/10 then
    [{ event_type := "good_crosshair_placement", timestamp := t
       confidence := pq, data := [("placement_quality", pq)]
       position := some ch.position }]
  else if pq < 3/10 then
    [{ event_type := "poor_crosshair_placement", timestamp := t
       confidence := 1 - pq, data := [("placement_quality", pq)]
       position := some ch.position }]
  else []

/-- The movement section of `_detect_events`. -/
def movementEventList (t : ℚ) (fd : FrameData) : List GameEvent :=
  match fd.movement with
  | some m =>
      if m.is_moving then
        let efficiency := assessMovementEfficiency (some m)
        if efficiency < 4/10 then
          [{ event_type := "inefficient_movement", timestamp := t
             confidence := 7/10, data := [("efficiency", efficiency)]
             position := none }]
        else []
      else []
  | none => []

/-- `GameAnalyzer._detect_events` at current time `t`; `none` models the
ZeroDivisionError propagating out of `_assess_crosshair_placement`. -/
def detectEvents (events : List GameEvent) (t : ℚ) (fd : FrameData) :
    Option (List GameEvent) :=
  match fd.crosshair with
  | some ch =>
      if ch.is_visible then
        match assessCrosshairPlacement ch fd.enemies with
        | none => none
        | some pq =>
            some (enemyEventList events t fd ++ crosshairEventList t ch pq
              ++ movementEventList t fd)
      else some (enemyEventList events t fd ++ movementEventList t fd)
  | none => some (enemyEventList events t fd ++ movementEventList t fd)

/-- The score-collecting loop of `_calculate_accuracy`: one placement
score per (crosshair, enemies) pair, aborting at the first
ZeroDivisionError exactly as the Python loop would. -/
def collectPlacementScores :
    List (CrosshairInfo × List GameElement) → Option (List ℚ)
  | [] => some []
  | q :: qs =>
      match assessCrosshairPlacement q.1 q.2 with
      | none => none
      | some s =>
          match collectPlacementScores qs with
          | none => none
          | some rest => some (s :: rest)

/-- `GameAnalyzer._calculate_accuracy`: mean placement quality over the
last 30 frames that have both a crosshair and enemies. -/
def calculateAccuracy (st : State) : Option ℚ :=
  if st.frame_data.length < 10 then some (1/2)
  else
    let pairs := (lastN 30 st.frame_data).filterMap
      (fun p => match p.2.crosshair with
        | some ch => if p.2.enemies = [] then none else some (ch, p.2.enemies)
        | none => none)
    match collectPlacementScores pairs with
    | none => none
    | some [] => some (1/2)
    | some scores => some (listMean scores)

/-- `GameAnalyzer._calculate_reaction_time` (fixed placeholder). -/
def calculateReactionTime : ℚ := 3/10

/-- `GameAnalyzer._calculate_crosshair_placement_score`: the loop
re-evaluates the (state-only) stability score once per last-30 frame
carrying a crosshair and averages the copies. -/
def calculateCrosshairPlacementScore (st : State) : ℚ :=
  if st.frame_data.length < 10 then 1/2
  else
    let scores := (lastN 30 st.frame_data).filterMap
      (fun p => if p.2.crosshair.isSome
        then some (assessCrosshairStability st) else none)
    if scores = [] then 1/2 else listMean scores

/-- `GameAnalyzer._calculate_movement_efficiency`. -/
def calculateMovementEfficiency (st : State) : ℚ :=
  if st.frame_data.length < 10 then 1/2
  else
    let scores := (lastN 30 st.frame_data).filterMap
      (fun p => if p.2.movement.isSome
        then some (assessMovementEfficiency p.2.movement) else none)
    if scores = [] then 1/2 else listMean scores

/-- `GameAnalyzer._calculate_game_sense`: positive over positive plus
negative event counts in the whole event history. -/
def calculateGameSense (events : List GameEvent) : ℚ :=
  if events.length < 5 then 1/2
  else
    let positive := (events.filter
      (fun e => e.event_type == "good_crosshair_placement")).length
    let negative := (events.filter
      (fun e => e.event_type == "poor_crosshair_placement"
        || e.event_type == "inefficient_movement")).length
    if positive + negative = 0 then 1/2
    else (positive : ℚ) / ((positive : ℚ) + (negative : ℚ))

/-- `GameAnalyzer._calculate_performance_metrics`; the early return for
fewer than 10 stored frames does not touch `performance_history`. -/
def calculatePerformanceMetrics (st : State) :
    Option (PerformanceMetrics × State) :=
  if st.frame_data.length < 10 then
    some ({ accuracy := 0, reaction_time := 0, crosshair_placement := 0
            movement_efficiency := 0, game_sense := 0, overall_score := 0 },
          st)
  else
    match calculateAccuracy st with
    | none => none
    | some accuracy =>
        let reaction_time := calculateReactionTime
        let crosshair_placement := calculateCrosshairPlacementScore st
        let movement_efficiency := calculateMovementEfficiency st
        let game_sense := calculateGameSense st.events
        let overall_score :=
          (accuracy + crosshair_placement + movement_efficiency
            + game_sense) / 4
        let m : PerformanceMetrics :=
          { accuracy, reaction_time, crosshair_placement
            movement_efficiency, game_sense, overall_score }
        some (m, { st with performance_history :=
                     appendBounded 100 st.performance_history m })

/-- The `crosshair_analysis` sub-dict of `_analyze_current_frame`. -/
structure CrosshairAnalysis where
  position : ℤ × ℤ
  is_visible : Bool
  placement_quality : ℚ
  stability : ℚ
deriving DecidableEq, Repr

/-- The `enemy_analysis` sub-dict of `_analyze_current_frame`. -/
structure EnemyAnalysis where
  enemy_count : Nat
  closest_enemy : Option GameElement
  threat_level : ℚ
  engagement_opportunity : ℚ
deriving DecidableEq, Repr

/-- The `movement_analysis` sub-dict of `_analyze_current_frame`. -/
structure MovementAnalysis where
  is_moving : Bool
  movement_direction : String
  movement_magnitude : ℚ
  movement_efficiency : ℚ
deriving DecidableEq, Repr

/-- The `ui_analysis` sub-dict of `_analyze_current_frame`. -/
structure UIAnalysis where
  ui_elements_detected : Nat
  health_status : String
  ammo_status : String
deriving DecidableEq, Repr

/-- Result of `_analyze_current_frame` (`none` sub-fields are the empty
sub-dicts left when the guarding key is absent or falsy). -/
structure FrameAnalysis where
  crosshair_analysis : Option CrosshairAnalysis
  enemy_analysis : Option EnemyAnalysis
  movement_analysis : Option MovementAnalysis
  ui_analysis : Option UIAnalysis
deriving DecidableEq, Repr

/-- `GameAnalyzer._analyze_current_frame` (run after the frame has been
appended to the history, as in `process_frame_data`). -/
def analyzeCurrentFrame (sq : ℚ → ℚ) (st : State) (fd : FrameData) :
    Option FrameAnalysis :=
  let enemyPart : Option EnemyAnalysis :=
    if fd.enemies = [] then none
    else some { enemy_count := fd.enemies.length
                closest_enemy := findClosestEnemy fd.enemies
                threat_level := assessThreatLevel sq fd.enemies
                engagement_opportunity :=
                  assessEngagementOpportunity sq fd.enemies }
  let movementPart : Option MovementAnalysis :=
    fd.movement.map (fun m =>
      { is_moving := m.is_moving
        movement_direction := m.movement_direction
        movement_magnitude := m.movement_magnitude
        movement_efficiency := assessMovementEfficiency (some m) })
  let uiPart : Option UIAnalysis :=
    if fd.ui_elements = [] then none
    else some { ui_elements_detected := fd.ui_elements.length
                health_status := "unknown", ammo_status := "unknown" }
  match fd.crosshair with
  | some ch =>
      match assessCrosshairPlacement ch fd.enemies with
      | none => none
      | some pq =>
          some { crosshair_analysis := some
                   { position := ch.position, is_visible := ch.is_visible
                     placement_quality := pq
                     stability := assessCrosshairStability st }
                 enemy_analysis := enemyPart
                 movement_analysis := movementPart
                 ui_analysis := uiPart }
  | none =>
      some { crosshair_analysis := none, enemy_analysis := enemyPart
             movement_analysis := movementPart, ui_analysis := uiPart }

/-- `GameAnalyzer._generate_insights` (capped at 3 strings). -/
def generateInsights (analysis : FrameAnalysis) (events : List GameEvent)
    (performance : PerformanceMetrics) : List String :=
  let perfIns : List String :=
    (if performance.accuracy < 6/10 then
      ["Your accuracy needs improvement. Focus on crosshair placement and recoil control."]
     else []) ++
    (if performance.crosshair_placement < 5/10 then
      ["Work on keeping your crosshair at head level and pre-aiming common angles."]
     else []) ++
    (if performance.movement_efficiency < 4/10 then
      ["Your movement could be more efficient. Practice counter-strafing and positioning."]
     else []) ++
    (if performance.game_sense < 5/10 then
      ["Improve your game sense by learning common angles, timings, and team coordination."]
     else [])
  let eventIns : List String :=
    (lastN 5 events).filterMap (fun e =>
      if e.event_type == "poor_crosshair_placement" then
        some "Your crosshair is not positioned optimally. Aim at head level."
      else if e.event_type == "inefficient_movement" then
        some "You\x27re moving inefficiently. Use counter-strafing and proper positioning."
      else if e.event_type == "enemy_detected" then
        some "Enemy detected! Consider your positioning and team coordination."
      else none)
  let analysisIns : List String :=
    (if (analysis.enemy_analysis.map
          (fun a => a.threat_level)).getD 0 > 7/10 then
      ["High threat situation detected. Focus on positioning and team coordination."]
     else []) ++
    (if (analysis.movement_analysis.map
          (fun a => a.movement_magnitude)).getD 0 > 5 then
      ["You\x27re moving too much. Consider holding angles and being more patient."]
     else [])
  (perfIns ++ eventIns ++ analysisIns).take 3

/-- The `session_stats` snapshot returned by `process_frame_data`. -/
structure SessionStats where
  start_time : ℚ
  frames_processed : Nat
  events_detected : Nat
  performance_score : ℚ
deriving DecidableEq, Repr

/-- The result dict of `GameAnalyzer.process_frame_data`. -/
structure Result where
  analysis : FrameAnalysis
  events : List GameEvent
  performance : PerformanceMetrics
  insights : List String
  session_stats : SessionStats
deriving DecidableEq, Repr

/-- `GameAnalyzer.process_frame_data` at current time `t`.  A falsy
payload short-circuits to `({}, state unchanged)`; a raised
ZeroDivisionError (`none` result) leaves the state exactly as mutated up
to the raising call. -/
def processFrameData (sq : ℚ → ℚ) (st : State) (t : ℚ)
    (fd? : Option FrameData) : Option Result × State :=
  match fd? with
  | none => (none, st)
  | some fd =>
      let st1 := { st with
        frame_data := appendBounded 1800 st.frame_data (t, fd)
        frames_processed := st.frames_processed + 1 }
      match analyzeCurrentFrame sq st1 fd with
      | none => (none, st1)
      | some analysis =>
          match detectEvents st1.events t fd with
          | none => (none, st1)
          | some evs =>
              let st2 := { st1 with
                events := evs.foldl (appendBounded 1000) st1.events
                events_detected := st1.events_detected + evs.length }
              match calculatePerformanceMetrics st2 with
              | none => (none, st2)
              | some (performance, st3) =>
                  let insights := generateInsights analysis evs performance
                  (some { analysis, events := evs, performance, insights
                          session_stats :=
                            { start_time := st3.start_time
                              frames_processed := st3.frames_processed
                              events_detected := st3.events_detected
                              performance_score := st3.performance_score } },
                   st3)

end GameAnalyzer

/-- `BehaviorPattern` from src/analysis/behavior_analyzer.py. -/
structure BehaviorPattern where
  pattern_type : String
  confidence : ℚ
  frequency : ℚ
  description : String
  impact : String
deriving DecidableEq, Repr

namespace BehaviorAnalyzer

/-- State of a `BehaviorAnalyzer`: the rolling frame history with its
capacity (`self.patterns` is initialised to `{}` and never written
afterwards, so it is not part of the evolving state). -/
structure State where
  history_size : Nat
  behavior_history : List FrameData
deriving DecidableEq, Repr

/-- `BehaviorAnalyzer.__init__` (default `history_size = 1000`). -/
def initState (history_size : Nat := 1000) : State :=
  { history_size, behavior_history := [] }

/-- `BehaviorAnalyzer._analyze_crosshair_patterns`; `sq` is the
`np.sqrt` applied to each squared inter-frame reticle displacement. -/
def analyzeCrosshairPatterns (sq : ℚ → ℚ) (st : State) :
    Option BehaviorPattern :=
  if st.behavior_history.length < 20 then none
  else
    let positions := (GameAnalyzer.lastN 20 st.behavior_history).filterMap
      (fun f => match f.crosshair with
        | some ch => if ch.is_visible then some ch.position else none
        | none => none)
    if positions.length < 10 then none
    else
      let movements := (positions.zip positions.tail).map (fun pq =>
        sq ((((pq.2.1 - pq.1.1) ^ 2 + (pq.2.2 - pq.1.2) ^ 2 : ℤ)) : ℚ))
      let avg_movement := listMean movements
      let movement_variance := listVar movements
      if avg_movement < 5 then
        some { pattern_type := "steady_aim", confidence := 8/10
               frequency := 7/10
               description := "Player maintains steady crosshair position"
               impact := "positive" }
      else if avg_movement > 20 then
        some { pattern_type := "jittery_aim", confidence := 7/10
               frequency := 6/10
               description := "Player has jittery crosshair movement"
               impact := "negative" }
      else if movement_variance > 100 then
        some { pattern_type := "inconsistent_aim", confidence := 6/10
               frequency := 5/10
               description := "Player has inconsistent crosshair movement"
               impact := "negative" }
      else none

/-- `BehaviorAnalyzer._analyze_movement_patterns`. -/
def analyzeMovementPatterns (st : State) : Option BehaviorPattern :=
  if st.behavior_history.length < 20 then none
  else
    let movements := (GameAnalyzer.lastN 20 st.behavior_history).filterMap
      (fun f => f.movement)
    if movements.length < 10 then none
    else
      let movingFrac : ℚ :=
        ((movements.filter (fun m => m.is_moving)).length : ℚ)
          / (movements.length : ℚ)
      let avg_magnitude :=
        listMean (movements.map (fun m => m.movement_magnitude))
      if movingFrac > 8/10 then
        some { pattern_type := "excessive_movement", confidence := 7/10
               frequency := movingFrac
               description := "Player moves too frequently"
               impact := "negative" }
      else if movingFrac < 2/10 then
        some { pattern_type := "stationary_play", confidence := 6/10
               frequency := 1 - movingFrac
               description := "Player stays stationary too often"
               impact := "neutral" }
      else if avg_magnitude > 10 then
        some { pattern_type := "erratic_movement", confidence := 6/10
               frequency := 5/10
               description := "Player has erratic movement patterns"
               impact := "negative" }
      else none

/-- `BehaviorAnalyzer._analyze_engagement_patterns`.  NOTE: the enemy
frames are counted over the last 20 frames but the ratio divides by the
length of the WHOLE history (`len(self.behavior_history)`), not by 20. -/
def analyzeEngagementPatterns (st : State) : Option BehaviorPattern :=
  if st.behavior_history.length < 20 then none
  else
    let enemy_detections :=
      ((GameAnalyzer.lastN 20 st.behavior_history).filter
        (fun f => !f.enemies.isEmpty)).length
    let detectionFrac : ℚ :=
      (enemy_detections : ℚ) / (st.behavior_history.length : ℚ)
    if detectionFrac > 5/10 then
      some { pattern_type := "aggressive_play", confidence := 7/10
             frequency := detectionFrac
             description := "Player engages enemies frequently"
             impact := "positive" }
    else if detectionFrac < 1/10 then
      some { pattern_type := "passive_play", confidence := 6/10
             frequency := 1 - detectionFrac
             description := "Player avoids engagements"
             impact := "neutral" }
    else none

/-- `BehaviorAnalyzer._detect_patterns`. -/
def detectPatterns (sq : ℚ → ℚ) (st : State) : List BehaviorPattern :=
  if st.behavior_history.length < 10 then []
  else
    (analyzeCrosshairPatterns sq st).toList
      ++ (analyzeMovementPatterns st).toList
      ++ (analyzeEngagementPatterns st).toList

/-- `BehaviorAnalyzer._determine_aim_style`. -/
def determineAimStyle (st : State) : String :=
  let positions := (GameAnalyzer.lastN 30 st.behavior_history).filterMap
    (fun f => match f.crosshair with
      | some ch => if ch.is_visible then some ch.position else none
      | none => none)
  if positions.length < 5 then "unknown"
  else
    let variance :=
      (listVar (positions.map (fun q => (q.1 : ℚ)))
        + listVar (positions.map (fun q => (q.2 : ℚ)))) / 2
    if variance < 50 then "steady"
    else if variance < 200 then "controlled"
    else "erratic"

/-- `BehaviorAnalyzer._determine_movement_style`. -/
def determineMovementStyle (st : State) : String :=
  let movement_data := (GameAnalyzer.lastN 30 st.behavior_history).filterMap
    (fun f => f.movement)
  if movement_data.length < 5 then "unknown"
  else
    let movingFrac : ℚ :=
      ((movement_data.filter (fun m => m.is_moving)).length : ℚ)
        / (movement_data.length : ℚ)
    let avg_magnitude :=
      listMean (movement_data.map (fun m => m.movement_magnitude))
    if movingFrac < 2/10 then "stationary"
    else if movingFrac > 8/10 then "hyperactive"
    else if avg_magnitude > 8 then "erratic"
    else "controlled"

/-- `BehaviorAnalyzer._determine_engagement_style`. -/
def determineEngagementStyle (st : State) : String :=
  let enemy_counts := (GameAnalyzer.lastN 30 st.behavior_history).map
    (fun f => f.enemies.length)
  if enemy_counts.length < 5 then "unknown"
  else
    let avg_enemies := listMean (enemy_counts.map (fun n => (n : ℚ)))
    let max_enemies := enemy_counts.foldl max 0
    if avg_enemies > 3/2 then "aggressive"
    else if max_enemies > 2 then "opportunistic"
    else if avg_enemies < 1/2 then "passive"
    else "balanced"

/-- `BehaviorAnalyzer._determine_positioning_style` (placeholder). -/
def determinePositioningStyle : String := "standard"

/-- The tendencies dict of `_analyze_tendencies`. -/
structure Tendencies where
  aim_style : String
  movement_style : String
  engagement_style : String
  positioning_style : String
deriving DecidableEq, Repr

/-- `BehaviorAnalyzer._analyze_tendencies` (`none` is the empty dict
returned below 10 stored frames). -/
def analyzeTendencies (st : State) : Option Tendencies :=
  if st.behavior_history.length < 10 then none
  else some { aim_style := determineAimStyle st
              movement_style := determineMovementStyle st
              engagement_style := determineEngagementStyle st
              positioning_style := determinePositioningStyle }

/-- `BehaviorAnalyzer._generate_behavior_insights` (capped at 3). -/
def generateBehaviorInsights (patterns : List BehaviorPattern)
    (tendencies : Option Tendencies) : List String :=
  let patternIns := patterns.filterMap (fun p =>
    if p.impact == "negative" then
      if p.pattern_type == "jittery_aim" then
        some "Your aim is jittery. Try to stay calm and control your mouse movements."
      else if p.pattern_type == "excessive_movement" then
        some "You\x27re moving too much. Try to stay still when aiming and shooting."
      else if p.pattern_type == "erratic_movement" then
        some "Your movement is erratic. Practice smooth, controlled movement."
      else none
    else none)
  let aim_style := (tendencies.map (fun t => t.aim_style)).getD "unknown"
  let movement_style :=
    (tendencies.map (fun t => t.movement_style)).getD "unknown"
  let engagement_style :=
    (tendencies.map (fun t => t.engagement_style)).getD "unknown"
  let tendencyIns :=
    (if aim_style == "erratic" then
      ["Your aim style is erratic. Focus on smooth, controlled movements."]
     else []) ++
    (if movement_style == "hyperactive" then
      ["You move too frequently. Learn to stay still when necessary."]
     else []) ++
    (if engagement_style == "passive" then
      ["You\x27re too passive. Look for opportunities to engage enemies."]
     else if engagement_style == "aggressive" then
      ["You\x27re very aggressive. Make sure to coordinate with your team."]
     else [])
  (patternIns ++ tendencyIns).take 3

/-- The result dict of `BehaviorAnalyzer.analyze_behavior`. -/
structure Result where
  patterns : List BehaviorPattern
  tendencies : Option Tendencies
  insights : List String
deriving DecidableEq, Repr

/-- `BehaviorAnalyzer.analyze_behavior`: falsy payloads short-circuit to
`({}, state unchanged)`. -/
def analyzeBehavior (sq : ℚ → ℚ) (st : State) (fd? : Option FrameData) :
    Option Result × State :=
  match fd? with
  | none => (none, st)
  | some fd =>
      let st1 : State :=
        { st with behavior_history :=
            appendBounded st.history_size st.behavior_history fd }
      let patterns := detectPatterns sq st1
      let tendencies := analyzeTendencies st1
      let insights := generateBehaviorInsights patterns tendencies
      (some { patterns, tendencies, insights }, st1)

end BehaviorAnalyzer

/-- `SkillAssessment` from src/analysis/skill_assessor.py. -/
structure SkillAssessment where
  skill_name : String
  score : ℚ
  confidence : ℚ
  improvement_needed : Bool
  recommendations : List String
deriving DecidableEq, Repr

namespace SkillAssessor

/-- The `performance_data` dict consumed by `assess_skills`; `Option`
fields model key presence (`.get` defaults apply when absent). -/
structure PerformanceData where
  accuracy : Option ℚ
  crosshair_placement : Option ℚ
  movement_efficiency : Option ℚ
  game_sense : Option ℚ
  reaction_time : Option ℚ
deriving DecidableEq, Repr

/-- `SkillAssessor._assess_aim`. -/
def assessAim (pd : PerformanceData) : SkillAssessment :=
  let accuracy := pd.accuracy.getD (1/2)
  let aim_score := min 1 (accuracy * (3/2))
  let recommendations :=
    if aim_score < 4/10 then
      ["Practice in the Range with different weapons",
       "Focus on recoil control",
       "Use aim training maps"]
    else if aim_score < 7/10 then
      ["Work on flicking accuracy",
       "Practice tracking moving targets",
       "Improve spray control"]
    else []
  { skill_name := "aim", score := aim_score, confidence := 8/10
    improvement_needed := aim_score < 6/10, recommendations }

/-- `SkillAssessor._assess_crosshair_placement`. -/
def assessCrosshairPlacement (pd : PerformanceData) : SkillAssessment :=
  let crosshair_score := pd.crosshair_placement.getD (1/2)
  let recommendations :=
    if crosshair_score < 4/10 then
      ["Keep crosshair at head level",
       "Pre-aim common angles",
       "Practice crosshair placement in the Range"]
    else if crosshair_score < 7/10 then
      ["Improve crosshair stability",
       "Work on pre-aiming multiple angles",
       "Practice crosshair placement while moving"]
    else []
  { skill_name := "crosshair_placement", score := crosshair_score
    confidence := 9/10, improvement_needed := crosshair_score < 6/10
    recommendations }

/-- `SkillAssessor._assess_movement`. -/
def assessMovement (pd : PerformanceData) : SkillAssessment :=
  let movement_score := pd.movement_efficiency.getD (1/2)
  let recommendations :=
    if movement_score < 4/10 then
      ["Learn counter-strafing",
       "Practice efficient movement patterns",
       "Don\x27t move while shooting"]
    else if movement_score < 7/10 then
      ["Improve strafe shooting",
       "Work on movement timing",
       "Practice movement with abilities"]
    else []
  { skill_name := "movement", score := movement_score, confidence := 7/10
    improvement_needed := movement_score < 5/10, recommendations }

/-- `SkillAssessor._assess_positioning`. -/
def assessPositioning (pd : PerformanceData) : SkillAssessment :=
  let game_sense := pd.game_sense.getD (1/2)
  let positioning_score := game_sense * (8/10)
  let recommendations :=
    if positioning_score < 4/10 then
      ["Learn common positions on each map",
       "Always have cover nearby",
       "Don\x27t expose yourself to multiple angles"]
    else if positioning_score < 7/10 then
      ["Work on off-angle positioning",
       "Improve rotation timing",
       "Learn team positioning"]
    else []
  { skill_name := "positioning", score := positioning_score
    confidence := 6/10, improvement_needed := positioning_score < 5/10
    recommendations }

/-- `SkillAssessor._assess_game_sense`. -/
def assessGameSense (pd : PerformanceData) : SkillAssessment :=
  let game_sense_score := pd.game_sense.getD (1/2)
  let recommendations :=
    if game_sense_score < 4/10 then
      ["Watch professional matches",
       "Learn common timings and rotations",
       "Improve communication with team"]
    else if game_sense_score < 7/10 then
      ["Study opponent patterns",
       "Improve decision making",
       "Learn economy management"]
    else []
  { skill_name := "game_sense", score := game_sense_score
    confidence := 7/10, improvement_needed := game_sense_score < 5/10
    recommendations }

/-- `SkillAssessor._assess_reaction_time`: the score is
`max(0, 1 - (reaction_time - 0.2) / 0.3)` with NO upper clamp. -/
def assessReactionTime (pd : PerformanceData) : SkillAssessment :=
  let reaction_time := pd.reaction_time.getD (3/10)
  let reaction_score := max 0 (1 - (reaction_time - 2/10) / (3/10))
  let recommendations :=
    if reaction_score < 4/10 then
      ["Practice reaction time exercises",
       "Improve focus and concentration",
       "Work on anticipation"]
    else if reaction_score < 7/10 then
      ["Practice flicking to targets",
       "Work on quick decision making",
       "Improve visual processing"]
    else []
  { skill_name := "reaction_time", score := reaction_score
    confidence := 5/10, improvement_needed := reaction_score < 6/10
    recommendations }

/-- The six-entry dict returned by `SkillAssessor.assess_skills`
(its keys are fixed). -/
structure Assessments where
  aim : SkillAssessment
  crosshair_placement : SkillAssessment
  movement : SkillAssessment
  positioning : SkillAssessment
  game_sense : SkillAssessment
  reaction_time : SkillAssessment
deriving DecidableEq, Repr

/-- `SkillAssessor.assess_skills`. -/
def assessSkills (pd : PerformanceData) : Assessments :=
  { aim := assessAim pd
    crosshair_placement := assessCrosshairPlacement pd
    movement := assessMovement pd
    positioning := assessPositioning pd
    game_sense := assessGameSense pd
    reaction_time := assessReactionTime pd }

/-- `SkillAssessor.get_overall_skill_level` over the six fixed keys
(every key is in `skill_weights`, so each weight lookup hits). -/
def getOverallSkillLevel (a : Assessments) : String :=
  let total_score :=
    a.aim.score * (25/100) + a.crosshair_placement.score * (20/100)
      + a.movement.score * (15/100) + a.positioning.score * (15/100)
      + a.game_sense.score * (15/100) + a.reaction_time.score * (10/100)
  let total_weight : ℚ :=
    25/100 + 20/100 + 15/100 + 15/100 + 15/100 + 10/100
  if total_weight = 0 then "beginner"
  else
    let overall_score := total_score / total_weight
    if overall_score ≥ 8/10 then "advanced"
    else if overall_score ≥ 6/10 then "intermediate"
    else "beginner"

end SkillAssessor

/-- A value stored in a `CoachingTip.context` dict (numbers or strings
at the construction sites). -/
inductive ContextVal where
  | num (q : ℚ)
  | str (s : String)
deriving DecidableEq, Repr

/-- `CoachingTip` from src/coaching/coach.py. -/
structure CoachingTip where
  tip_id : String
  category : String
  priority : ℤ
  message : String
  timestamp : ℚ
  context : List (String × ContextVal)
  actionable : Bool := true
deriving DecidableEq, Repr

/-- `PlayerProfile` from src/coaching/coach.py. -/
structure PlayerProfile where
  skill_level : String
  primary_role : String
  strengths : List String
  weaknesses : List String
  goals : List String
  playtime_hours : ℤ
deriving DecidableEq, Repr

namespace Coach

/-- An update payload for `update_player_profile`; an `Option` field is
`some` exactly when the corresponding key is present in the dict. -/
structure ProfileUpdate where
  skill_level : Option String := none
  primary_role : Option String := none
  strengths : Option (List String) := none
  weaknesses : Option (List String) := none
  goals : Option (List String) := none
  playtime_hours : Option ℤ := none
deriving DecidableEq, Repr

/-- `Coach.update_player_profile`: the method has branches for
`skill_level`, `primary_role`, `strengths`, `weaknesses` and `goals`
only — a `playtime_hours` key in the payload is never read. -/
def updatePlayerProfile (p : PlayerProfile) (u : ProfileUpdate) :
    PlayerProfile :=
  { skill_level := u.skill_level.getD p.skill_level
    primary_role := u.primary_role.getD p.primary_role
    strengths := u.strengths.getD p.strengths
    weaknesses := u.weaknesses.getD p.weaknesses
    goals := u.goals.getD p.goals
    playtime_hours := p.playtime_hours }

/-- `Coach._create_default_profile`. -/
def defaultProfile : PlayerProfile :=
  { skill_level := "beginner", primary_role := "duelist"
    strengths := ["enthusiasm", "willingness to learn"]
    weaknesses := ["aim", "positioning", "game sense"]
    goals := ["improve overall gameplay", "reach higher rank"]
    playtime_hours := 0 }

/-- Coaching state (`Coach.__init__`): profile, bounded tip histories,
last-tip timestamp and the fixed cooldown. -/
structure State where
  player_profile : PlayerProfile
  tip_history : List CoachingTip
  session_tips : List CoachingTip
  last_tip_time : ℚ
  tip_cooldown : ℚ
deriving DecidableEq, Repr

/-- A fresh coach state. -/
def initState (profile : PlayerProfile := defaultProfile) : State :=
  { player_profile := profile, tip_history := [], session_tips := []
    last_tip_time := 0, tip_cooldown := 5 }

/-- The keys of the analysis dict that `process_analysis` reads. -/
structure AnalysisPayload where
  performance : Option PerformanceMetrics
  events : List GameEvent
  insights : List String
deriving DecidableEq, Repr

/-- `Coach._generate_performance_tips` at current time `t`
(`tip_id` interpolates the time as Python does with `f"..._{t}"`). -/
def generatePerformanceTips (performance : PerformanceMetrics) (t : ℚ) :
    List CoachingTip :=
  (if performance.accuracy < 6/10 then
    [{ tip_id := "accuracy_" ++ toString t, category := "mechanics"
       priority := 5
       message := "Your accuracy needs improvement. Practice in the Range with different weapons and focus on recoil control."
       timestamp := t
       context := [("accuracy", ContextVal.num performance.accuracy)] }]
   else []) ++
  (if performance.crosshair_placement < 5/10 then
    [{ tip_id := "crosshair_" ++ toString t
       category := "crosshair_placement", priority := 5
       message := "Keep your crosshair at head level and pre-aim common angles. This will improve your reaction time and accuracy."
       timestamp := t
       context := [("crosshair_placement",
         ContextVal.num performance.crosshair_placement)] }]
   else []) ++
  (if performance.movement_efficiency < 4/10 then
    [{ tip_id := "movement_" ++ toString t, category := "movement"
       priority := 4
       message := "Practice counter-strafing and efficient movement. Don\x27t move while shooting unless necessary."
       timestamp := t
       context := [("movement_efficiency",
         ContextVal.num performance.movement_efficiency)] }]
   else []) ++
  (if performance.game_sense < 5/10 then
    [{ tip_id := "gamesense_" ++ toString t, category := "game_sense"
       priority := 3
       message := "Improve your game sense by learning common angles, timings, and team coordination patterns."
       timestamp := t
       context := [("game_sense", ContextVal.num performance.game_sense)] }]
   else [])

/-- `Coach._generate_event_tips` (last 3 events). -/
def generateEventTips (events : List GameEvent) (t : ℚ) :
    List CoachingTip :=
  (GameAnalyzer.lastN 3 events).filterMap (fun e =>
    if e.event_type == "poor_crosshair_placement" then
      some { tip_id := "event_crosshair_" ++ toString t
             category := "crosshair_placement", priority := 4
             message := "Your crosshair placement was poor. Aim at head level and pre-aim angles."
             timestamp := t
             context := [("event_type", ContextVal.str e.event_type)] }
    else if e.event_type == "inefficient_movement" then
      some { tip_id := "event_movement_" ++ toString t
             category := "movement", priority := 3
             message := "Your movement was inefficient. Use counter-strafing and proper positioning."
             timestamp := t
             context := [("event_type", ContextVal.str e.event_type)] }
    else if e.event_type == "enemy_detected" then
      some { tip_id := "event_enemy_" ++ toString t
             category := "game_sense", priority := 3
             message := "Enemy detected! Consider your positioning and communicate with your team."
             timestamp := t
             context := [("event_type", ContextVal.str e.event_type)] }
    else none)

/-- `Coach._generate_insight_tips` (top 2 insights; category and
priority by keyword match on the lowercase insight text). -/
def generateInsightTips (insights : List String) (t : ℚ) :
    List CoachingTip :=
  ((insights.take 2).enum).map (fun p =>
    let insight := p.2
    let cp : String × ℤ :=
      if containsLower insight "crosshair" then ("crosshair_placement", 4)
      else if containsLower insight "movement" then ("movement", 4)
      else if containsLower insight "positioning" then ("positioning", 4)
      else if containsLower insight "accuracy" then ("mechanics", 5)
      else ("general", 3)
    { tip_id := "insight_" ++ toString t ++ "_" ++ toString p.1
      category := cp.1, priority := cp.2, message := insight
      timestamp := t
      context := [("insight_index", ContextVal.num (p.1 : ℚ))] })

/-- Stable insertion step for descending-priority order: the new tip
goes after every existing tip of strictly higher priority and before
the first tip of lower or equal priority that was later in the input. -/
def insertTipDesc (t : CoachingTip) :
    List CoachingTip → List CoachingTip
  | [] => [t]
  | x :: xs =>
      if t.priority < x.priority then x :: insertTipDesc t xs
      else t :: x :: xs

/-- `tips.sort(key=lambda x: x.priority, reverse=True)`: Python sort is
stable, and stable insertion sort yields the identical list. -/
def sortTipsDesc : List CoachingTip → List CoachingTip
  | [] => []
  | x :: xs => insertTipDesc x (sortTipsDesc xs)

/-- The dedup loop of `_filter_tips` (`seen` collects categories of the
tips kept so far). -/
def dedupByCategory : List CoachingTip → List String → List CoachingTip
  | [], _ => []
  | t :: ts, seen =>
      if t.category ∈ seen then dedupByCategory ts seen
      else t :: dedupByCategory ts (t.category :: seen)

/-- `Coach._filter_tips`. -/
def filterTips (tips : List CoachingTip) : List CoachingTip :=
  dedupByCategory (sortTipsDesc tips) []

/-- The candidate tips built inside `process_analysis` (its three
sources, with the non-empty guards of the code). -/
def candidateTips (t : ℚ) (ad : AnalysisPayload) : List CoachingTip :=
  (match ad.performance with
   | some p => generatePerformanceTips p t
   | none => []) ++
  (if ad.events.isEmpty then [] else generateEventTips ad.events t) ++
  (if ad.insights.isEmpty then [] else generateInsightTips ad.insights t)

/-- `Coach.process_analysis` at current time `t` (falsy payloads and
calls inside the cooldown return `[]` without touching the state). -/
def processAnalysis (st : State) (t : ℚ) (ad? : Option AnalysisPayload) :
    List CoachingTip × State :=
  match ad? with
  | none => ([], st)
  | some ad =>
      if t - st.last_tip_time < st.tip_cooldown then ([], st)
      else
        let filtered := filterTips (candidateTips t ad)
        let st1 : State :=
          { st with
            tip_history := filtered.foldl (appendBounded 100) st.tip_history
            session_tips :=
              filtered.foldl (appendBounded 50) st.session_tips
            last_tip_time :=
              if filtered.isEmpty then st.last_tip_time else t }
        (filtered.take 3, st1)

end Coach

namespace FrameProcessor

/-- State of a `FrameProcessor`: its bounded raw-frame history
(`max_history = 30`); `Img` abstracts the pixel buffer. -/
structure State (Img : Type) where
  frame_history : List Img

/-- The result dict of `FrameProcessor.process_frame`
(an empty `movement` dict is `none`). -/
structure FPResult where
  crosshair : Option CrosshairInfo
  enemies : List GameElement
  ui_elements : List GameElement
  movement : Option MovementData
  timestamp : Nat
deriving DecidableEq, Repr

/-- `FrameProcessor.process_frame`: a `None` frame short-circuits to
`({}, state unchanged)`; otherwise the frame joins the bounded history
and the four sub-detectors run.  The pixel-level detectors
(`_detect_crosshair`, `_detect_enemies`, `_detect_ui_elements`,
`_analyze_movement`, all OpenCV code) are abstracted as the function
parameters `dc`, `de`, `du`, `dm`. -/
def processFrame {Img : Type} (dc : Img → Option CrosshairInfo)
    (de du : Img → List GameElement) (dm : List Img → Option MovementData)
    (st : State Img) (frame? : Option Img) :
    Option FPResult × State Img :=
  match frame? with
  | none => (none, st)
  | some f =>
      let hist0 := st.frame_history ++ [f]
      let hist := if hist0.length > 30 then hist0.drop 1 else hist0
      (some { crosshair := dc f, enemies := de f, ui_elements := du f
              movement := dm hist, timestamp := hist.length },
       { frame_history := hist })

end FrameProcessor

/-! ### General range lemmas -/

lemma listMean_bounds {l : List ℚ} (h0 : l ≠ [])
    (hb : ∀ x ∈ l, 0 ≤ x ∧ x ≤ 1) : 0 ≤ listMean l ∧ listMean l ≤ 1 := by
  have hlen : 0 < (l.length : ℚ) := by
    have := List.length_pos.mpr h0
    exact_mod_cast this
  have hsum0 : 0 ≤ l.sum := List.sum_nonneg (fun x hx => (hb x hx).1)
  have hsum1 : l.sum ≤ (l.length : ℚ) := by
    have := List.sum_le_card_nsmul l 1 (fun x hx => (hb x hx).2)
    simpa [nsmul_eq_mul] using this
  constructor
  · exact div_nonneg hsum0 (le_of_lt hlen)
  · rw [listMean, div_le_one hlen]
    exact hsum1

lemma clamp01_bounds (x : ℚ) : 0 ≤ min 1 (max 0 x) ∧ min 1 (max 0 x) ≤ 1 :=
  ⟨le_min (by norm_num) (le_max_left 0 x), min_le_left 1 _⟩

namespace GameAnalyzer

lemma assessCrosshairPlacement_bounds {ch : CrosshairInfo}
    {enemies : List GameElement} {q : ℚ}
    (h : assessCrosshairPlacement ch enemies = some q) : 0 ≤ q ∧ q ≤ 1 := by
  unfold assessCrosshairPlacement at h
  split at h
  · cases h; norm_num
  · split at h
    · cases h; norm_num
    · dsimp only at h
      split at h
      · cases h
      · cases h; exact clamp01_bounds _

lemma assessCrosshairStability_bounds (st : State) :
    0 ≤ assessCrosshairStability st ∧ assessCrosshairStability st ≤ 1 := by
  unfold assessCrosshairStability
  split
  · norm_num
  · dsimp only
    split
    · norm_num
    · exact clamp01_bounds _

lemma assessMovementEfficiency_bounds (m : Option MovementData) :
    0 ≤ assessMovementEfficiency m ∧ assessMovementEfficiency m ≤ 1 := by
  unfold assessMovementEfficiency
  rcases m with _ | md
  · norm_num
  · dsimp only
    split
    · norm_num
    · split
      · norm_num
      · split <;> norm_num

lemma calculateGameSense_bounds (events : List GameEvent) :
    0 ≤ calculateGameSense events ∧ calculateGameSense events ≤ 1 := by
  unfold calculateGameSense
  split
  · norm_num
  · dsimp only
    split
    · norm_num
    · rename_i hpn
      set p := (events.filter
        (fun e => e.event_type == "good_crosshair_placement")).length with hp
      set n := (events.filter
        (fun e => e.event_type == "poor_crosshair_placement"
          || e.event_type == "inefficient_movement")).length with hn
      have htot : 0 < (p : ℚ) + (n : ℚ) := by
        have : 0 < p + n := Nat.pos_of_ne_zero hpn
        exact_mod_cast this
      constructor
      · exact div_nonneg (by positivity) (le_of_lt htot)
      · rw [div_le_one htot]
        have : (0 : ℚ) ≤ (n : ℚ) := by positivity
        linarith

lemma collectPlacementScores_bounds :
    ∀ {ps : List (CrosshairInfo × List GameElement)} {ys : List ℚ},
      collectPlacementScores ps = some ys → ∀ y ∈ ys, 0 ≤ y ∧ y ≤ 1 := by
  intro ps
  induction ps with
  | nil =>
      intro ys h y hy
      cases h
      cases hy
  | cons q qs ih =>
      intro ys h y hy
      unfold collectPlacementScores at h
      split at h
      · cases h
      · split at h
        · cases h
        · cases h
          rcases List.mem_cons.mp hy with rfl | hmem
          · exact assessCrosshairPlacement_bounds (by assumption)
          · exact ih (by assumption) y hmem

lemma calculateAccuracy_bounds {st : State} {q : ℚ}
    (h : calculateAccuracy st = some q) : 0 ≤ q ∧ q ≤ 1 := by
  unfold calculateAccuracy at h
  split at h
  · cases h; norm_num
  · dsimp only at h
    split at h
    · cases h
    · cases h; norm_num
    · rename_i s hne hcol
      cases h
      exact listMean_bounds hne (collectPlacementScores_bounds hcol)

lemma calculateCrosshairPlacementScore_bounds (st : State) :
    0 ≤ calculateCrosshairPlacementScore st ∧
      calculateCrosshairPlacementScore st ≤ 1 := by
  unfold calculateCrosshairPlacementScore
  split
  · norm_num
  · dsimp only
    split
    · norm_num
    · rename_i hne
      refine listMean_bounds hne ?_
      intro x hx
      rcases List.mem_filterMap.mp hx with ⟨p, _, hp⟩
      split at hp
      · cases hp
        exact assessCrosshairStability_bounds st
      · cases hp

lemma calculateMovementEfficiency_bounds (st : State) :
    0 ≤ calculateMovementEfficiency st ∧
      calculateMovementEfficiency st ≤ 1 := by
  unfold calculateMovementEfficiency
  split
  · norm_num
  · dsimp only
    split
    · norm_num
    · rename_i hne
      refine listMean_bounds hne ?_
      intro x hx
      rcases List.mem_filterMap.mp hx with ⟨p, _, hp⟩
      split at hp
      · cases hp
        exact assessMovementEfficiency_bounds _
      · cases hp

/-- All five bounded components of a successfully computed
`PerformanceMetrics` lie in `[0, 1]`. -/
lemma calculatePerformanceMetrics_bounds {st : State}
    {m : PerformanceMetrics} {st' : State}
    (h : calculatePerformanceMetrics st = some (m, st')) :
    (0 ≤ m.accuracy ∧ m.accuracy ≤ 1) ∧
    (0 ≤ m.crosshair_placement ∧ m.crosshair_placement ≤ 1) ∧
    (0 ≤ m.movement_efficiency ∧ m.movement_efficiency ≤ 1) ∧
    (0 ≤ m.game_sense ∧ m.game_sense ≤ 1) ∧
    (0 ≤ m.overall_score ∧ m.overall_score ≤ 1) := by
  unfold calculatePerformanceMetrics at h
  split at h
  · cases h
    norm_num
  · split at h
    · cases h
    · rename_i acc hacc
      cases h
      have h1 := calculateAccuracy_bounds hacc
      have h2 := calculateCrosshairPlacementScore_bounds st
      have h3 := calculateMovementEfficiency_bounds st
      have h4 := calculateGameSense_bounds st.events
      refine ⟨h1, h2, h3, h4, ?_, ?_⟩
      · dsimp only
        linarith [h1.1, h2.1, h3.1, h4.1]
      · dsimp only
        linarith [h1.2, h2.2, h3.2, h4.2]

end GameAnalyzer

/-! ### Claim C1 -/

/-- `0 ≤ x ≤ 1`, the range asserted for all bounded scores. -/
def inUnit (x : ℚ) : Prop := 0 ≤ x ∧ x ≤ 1

namespace GameAnalyzer

/-- The fold step of `_find_closest_enemy` keeps the incumbent unless
the candidate is strictly closer, and any incumbent beats `none`. -/
lemma closerEnemy_spec (l : List GameElement) (b : GameElement) :
    ∃ e, l.foldl
        (fun best e =>
          match best with
          | none => some e
          | some b =>
              if dist2 e.center screenCenter < dist2 b.center screenCenter
              then some e else some b)
        (some b) = some e ∧
      (e = b ∨ e ∈ l) ∧
      dist2 e.center screenCenter ≤ dist2 b.center screenCenter ∧
      ∀ e' ∈ l, dist2 e.center screenCenter ≤ dist2 e'.center screenCenter := by
  induction l generalizing b with
  | nil => exact ⟨b, rfl, Or.inl rfl, le_refl _, by simp⟩
  | cons x xs ih =>
      by_cases hx : dist2 x.center screenCenter < dist2 b.center screenCenter
      · obtain ⟨e, he, hmem, hle, hall⟩ := ih x
        refine ⟨e, ?_, ?_, ?_, ?_⟩
        · simpa [hx] using he
        · rcases hmem with rfl | h
          · exact Or.inr (List.mem_cons_self _ _)
          · exact Or.inr (List.mem_cons_of_mem _ h)
        · exact le_trans hle (le_of_lt hx)
        · intro e' he'
          rcases List.mem_cons.mp he' with rfl | h
          · exact hle
          · exact hall e' h
      · obtain ⟨e, he, hmem, hle, hall⟩ := ih b
        refine ⟨e, ?_, ?_, hle, ?_⟩
        · simpa [hx] using he
        · rcases hmem with rfl | h
          · exact Or.inl rfl
          · exact Or.inr (List.mem_cons_of_mem _ h)
        · intro e' he'
          rcases List.mem_cons.mp he' with rfl | h
          · exact le_trans hle (not_lt.mp hx)
          · exact hall e' h

/-- `_find_closest_enemy` returns a member of the list minimizing the
(squared) distance to screen center. -/
lemma findClosestEnemy_spec {l : List GameElement} {e : GameElement}
    (h : findClosestEnemy l = some e) :
    e ∈ l ∧ ∀ e' ∈ l,
      dist2 e.center screenCenter ≤ dist2 e'.center screenCenter := by
  cases l with
  | nil => cases h
  | cons x xs =>
      obtain ⟨e', he', hmem, hle, hall⟩ := closerEnemy_spec xs x
      have hfc : findClosestEnemy (x :: xs) = some e' := he'
      rw [hfc] at h
      obtain rfl : e' = e := Option.some.inj h
      refine ⟨?_, ?_⟩
      · rcases hmem with rfl | hm
        · exact List.mem_cons_self _ _
        · exact List.mem_cons_of_mem _ hm
      · intro y hy
        rcases List.mem_cons.mp hy with rfl | hm
        · exact hle
        · exact hall y hm

end GameAnalyzer

/-- The placement-quality formula exactly as the claim words it (for
refutation only): head point one-third down from the TOP of the nearest
opponent's bounding box, real division by half the box height,
`max(0, 1 − |reticle_y − head_y| / (box_height/2))`. -/
def claimPlacementScoreC1 (crosshair : CrosshairInfo)
    (enemies : List GameElement) : Option ℚ :=
  match GameAnalyzer.findClosestEnemy enemies with
  | none => none
  | some e =>
      let h : ℚ := ((e.bbox.2.2.2 : ℤ) : ℚ)
      let head_y : ℚ := ((e.bbox.2.1 : ℤ) : ℚ) + h / 3
      some (max 0 (1 - |((crosshair.position.2 : ℤ) : ℚ) - head_y| / (h / 2)))

/-- A visible crosshair two pixels below the top of an opponent box of
height 6 (detector-consistent `center = (x + w//2, y + h//2)`). -/
def chC1 : CrosshairInfo := ⟨(5, 2), true, (255, 255, 255)⟩

/-- One opponent, bbox `(0, 0, 10, 6)`, center `(5, 3)`. -/
def enC1 : GameElement := ⟨"enemy", 1, (0, 0, 10, 6), (5, 3)⟩

/-- C1 counterexample: the code scores this frame `2/3`
(`head_level = center_y − h//3 = 1`), while the claimed formula
(`head_y = box_top + h/3 = 2`) scores it `1`. -/
theorem c1_counterexample :
    GameAnalyzer.assessCrosshairPlacement chC1 [enC1] = some (2/3) ∧
    claimPlacementScoreC1 chC1 [enC1] = some 1 ∧ ((2 : ℚ)/3) ≠ 1 := by
  refine ⟨?_, ?_, by norm_num⟩
  · unfold GameAnalyzer.assessCrosshairPlacement
    rw [if_neg (by simp),
      show GameAnalyzer.findClosestEnemy [enC1] = some enC1 from rfl]
    norm_num [enC1, chC1, show Int.fdiv 6 2 = 3 from rfl,
      show Int.fdiv 6 3 = 2 from rfl, min_def, max_def]
  · unfold claimPlacementScoreC1
    rw [show GameAnalyzer.findClosestEnemy [enC1] = some enC1 from rfl]
    norm_num [enC1, chC1, max_def]

/-- C1 (amended): for a frame with at least one opponent whose
nearest-to-center candidate `e` has a detector-consistent center
(`center_y = box_top + h//2`) and nonzero `h//2`, the score is
`min(1, max(0, 1 − |reticle_y − head_level| / (h//2)))` with the head
point `head_level = box_top + h//2 − h//3` (integer divisions), i.e.
roughly one SIXTH — not one third — down from the box top; `e` indeed
minimizes the distance to screen center. -/
theorem c1_amended (ch : CrosshairInfo) (enemies : List GameElement)
    (e : GameElement)
    (he : GameAnalyzer.findClosestEnemy enemies = some e)
    (hc : e.center.2 = e.bbox.2.1 + Int.fdiv e.bbox.2.2.2 2)
    (hh : Int.fdiv e.bbox.2.2.2 2 ≠ 0) :
    (e ∈ enemies ∧ ∀ e' ∈ enemies,
      GameAnalyzer.dist2 e.center GameAnalyzer.screenCenter ≤
        GameAnalyzer.dist2 e'.center GameAnalyzer.screenCenter) ∧
    GameAnalyzer.assessCrosshairPlacement ch enemies =
      some (min 1 (max 0 (1 -
        ((|ch.position.2 - (e.bbox.2.1 + Int.fdiv e.bbox.2.2.2 2
            - Int.fdiv e.bbox.2.2.2 3)| : ℤ) : ℚ)
          / ((Int.fdiv e.bbox.2.2.2 2 : ℤ) : ℚ)))) := by
  have hne : enemies ≠ [] := by
    intro hnil
    rw [hnil] at he
    cases he
  refine ⟨GameAnalyzer.findClosestEnemy_spec he, ?_⟩
  unfold GameAnalyzer.assessCrosshairPlacement
  rw [if_neg hne, he]
  dsimp only
  rw [if_neg hh, ← hc]

/-- C1 witness: the amended statement evaluated on the concrete frame of
the counterexample. -/
theorem c1_witness :
    GameAnalyzer.assessCrosshairPlacement chC1 [enC1] =
      some (min 1 (max 0 (1 -
        ((|chC1.position.2 - (enC1.bbox.2.1 + Int.fdiv enC1.bbox.2.2.2 2
            - Int.fdiv enC1.bbox.2.2.2 3)| : ℤ) : ℚ)
          / ((Int.fdiv enC1.bbox.2.2.2 2 : ℤ) : ℚ)))) :=
  (c1_amended chC1 [enC1] enC1 (by decide) (by decide) (by decide)).2

/-! ### Claim C2 -/

/-- C2 counterexample: at `reaction_time = 0` the reaction-time skill
score is `5/3`, which exceeds 1 — contradicting "for every value of the
reaction_time input, the reaction-time skill score is at most 1". -/
theorem c2_counterexample :
    (SkillAssessor.assessReactionTime
      { accuracy := none, crosshair_placement := none
        movement_efficiency := none, game_sense := none
        reaction_time := some 0 }).score = 5/3 ∧
    ¬ ((5 : ℚ)/3 ≤ 1) := by
  constructor
  · norm_num [SkillAssessor.assessReactionTime, max_def]
  · norm_num

/-- C2 (amended): every bounded Session-Analyzer performance metric
(accuracy, crosshair placement, movement efficiency, game sense,
overall) lies in [0,1]; every SkillAssessment score lies in [0,1]
PROVIDED the four defaulted inputs lie in [0,1] and the reaction-time
input is at least 0.2; and the reaction-time score is at most 1 exactly
when the reaction-time input is at least 0.2 (it exceeds 1 below that,
e.g. 5/3 at 0). -/
theorem c2_amended :
    (∀ (st : GameAnalyzer.State) (m : PerformanceMetrics)
        (st' : GameAnalyzer.State),
      GameAnalyzer.calculatePerformanceMetrics st = some (m, st') →
        inUnit m.accuracy ∧ inUnit m.crosshair_placement ∧
        inUnit m.movement_efficiency ∧ inUnit m.game_sense ∧
        inUnit m.overall_score) ∧
    (∀ pd : SkillAssessor.PerformanceData,
      inUnit (pd.accuracy.getD (1/2)) →
      inUnit (pd.crosshair_placement.getD (1/2)) →
      inUnit (pd.movement_efficiency.getD (1/2)) →
      inUnit (pd.game_sense.getD (1/2)) →
      2/10 ≤ pd.reaction_time.getD (3/10) →
        inUnit (SkillAssessor.assessSkills pd).aim.score ∧
        inUnit (SkillAssessor.assessSkills pd).crosshair_placement.score ∧
        inUnit (SkillAssessor.assessSkills pd).movement.score ∧
        inUnit (SkillAssessor.assessSkills pd).positioning.score ∧
        inUnit (SkillAssessor.assessSkills pd).game_sense.score ∧
        inUnit (SkillAssessor.assessSkills pd).reaction_time.score) ∧
    (∀ pd : SkillAssessor.PerformanceData,
      (SkillAssessor.assessReactionTime pd).score ≤ 1 ↔
        2/10 ≤ pd.reaction_time.getD (3/10)) := by
  refine ⟨?_, ?_, ?_⟩
  · intro st m st' h
    have hb := GameAnalyzer.calculatePerformanceMetrics_bounds h
    exact ⟨hb.1, hb.2.1, hb.2.2.1, hb.2.2.2.1, hb.2.2.2.2⟩
  · intro pd ha hc hm hg hr
    unfold SkillAssessor.assessSkills SkillAssessor.assessAim
      SkillAssessor.assessCrosshairPlacement SkillAssessor.assessMovement
      SkillAssessor.assessPositioning SkillAssessor.assessGameSense
      SkillAssessor.assessReactionTime
    dsimp only
    refine ⟨⟨?_, ?_⟩, hc, hm, ⟨?_, ?_⟩, hg, ⟨?_, ?_⟩⟩
    · exact le_min (by norm_num) (by nlinarith [ha.1])
    · exact min_le_left _ _
    · nlinarith [hg.1]
    · nlinarith [hg.2]
    · exact le_max_left _ _
    · refine max_le (by norm_num) ?_
      have hd : (0:ℚ) ≤ (pd.reaction_time.getD (3/10) - 2/10) / (3/10) := by
        apply div_nonneg <;> linarith
      linarith
  · intro pd
    unfold SkillAssessor.assessReactionTime
    dsimp only
    constructor
    · intro h
      by_contra hlt
      push_neg at hlt
      have : (1:ℚ) < 1 - (pd.reaction_time.getD (3/10) - 2/10) / (3/10) := by
        have : (pd.reaction_time.getD (3/10) - 2/10) / (3/10) < 0 := by
          apply div_neg_of_neg_of_pos <;> linarith
        linarith
      have h2 := le_max_right (0:ℚ)
        (1 - (pd.reaction_time.getD (3/10) - 2/10) / (3/10))
      linarith
    · intro h
      refine max_le (by norm_num) ?_
      have : (0:ℚ) ≤ (pd.reaction_time.getD (3/10) - 2/10) / (3/10) := by
        apply div_nonneg <;> linarith
      linarith

/-- C2 witness: the amended statement evaluated at a fresh analyzer
state and at an all-default skill-assessor input. -/
theorem c2_witness :
    (inUnit ((0:ℚ)) ∧ inUnit (0:ℚ) ∧ inUnit (0:ℚ) ∧ inUnit (0:ℚ) ∧
      inUnit (0:ℚ)) ∧
    (inUnit (SkillAssessor.assessSkills
        ⟨none, none, none, none, none⟩).aim.score ∧
      inUnit (SkillAssessor.assessSkills
        ⟨none, none, none, none, none⟩).crosshair_placement.score ∧
      inUnit (SkillAssessor.assessSkills
        ⟨none, none, none, none, none⟩).movement.score ∧
      inUnit (SkillAssessor.assessSkills
        ⟨none, none, none, none, none⟩).positioning.score ∧
      inUnit (SkillAssessor.assessSkills
        ⟨none, none, none, none, none⟩).game_sense.score ∧
      inUnit (SkillAssessor.assessSkills
        ⟨none, none, none, none, none⟩).reaction_time.score) ∧
    ((SkillAssessor.assessReactionTime
        ⟨none, none, none, none, none⟩).score ≤ 1 ↔
      2/10 ≤ ((none : Option ℚ)).getD (3/10)) :=
  ⟨c2_amended.1 (GameAnalyzer.initState 0)
      { accuracy := 0, reaction_time := 0, crosshair_placement := 0
        movement_efficiency := 0, game_sense := 0, overall_score := 0 }
      (GameAnalyzer.initState 0) rfl,
   c2_amended.2.1 ⟨none, none, none, none, none⟩
      (by constructor <;> norm_num) (by constructor <;> norm_num)
      (by constructor <;> norm_num) (by constructor <;> norm_num)
      (by norm_num),
   c2_amended.2.2 ⟨none, none, none, none, none⟩⟩

/-! ### Claim C10 -/

/-- An opponent whose bounding box has height 1, so
`max_distance = 1 // 2 = 0` and the division raises. -/
def enC10 : GameElement := ⟨"enemy", 1, (0, 0, 10, 1), (5, 0)⟩

/-- C10: when the nearest opponent's bounding-box height is at least 2
the placement computation is total (the divisor `h // 2` is nonzero)
and its value lies in [0,1]; and on a concrete input whose nearest
opponent has height 1, the division by `h // 2 = 0` raises
(modelled as `none`). -/
theorem c10_placement_totality (ch : CrosshairInfo)
    (enemies : List GameElement) (e : GameElement)
    (he : GameAnalyzer.findClosestEnemy enemies = some e)
    (hh : 2 ≤ e.bbox.2.2.2) :
    (∃ q, GameAnalyzer.assessCrosshairPlacement ch enemies = some q ∧
      inUnit q) ∧
    GameAnalyzer.assessCrosshairPlacement chC1 [enC10] = none := by
  constructor
  · have hne : enemies ≠ [] := by
      intro hnil
      rw [hnil] at he
      cases he
    have hfd : Int.fdiv e.bbox.2.2.2 2 ≠ 0 := by
      have heq : Int.fdiv e.bbox.2.2.2 2 = e.bbox.2.2.2 / 2 :=
        Int.fdiv_eq_ediv _ (by norm_num)
      rw [heq]
      have h1 : (1:ℤ) ≤ e.bbox.2.2.2 / 2 := by
        rw [Int.le_ediv_iff_mul_le (by norm_num)]
        linarith
      omega
    refine ⟨min 1 (max 0 (1 -
        ((|ch.position.2 - (e.center.2 - Int.fdiv e.bbox.2.2.2 3)| : ℤ) : ℚ)
          / ((Int.fdiv e.bbox.2.2.2 2 : ℤ) : ℚ))), ?_, ?_⟩
    · unfold GameAnalyzer.assessCrosshairPlacement
      rw [if_neg hne, he]
      dsimp only
      rw [if_neg hfd]
    · exact clamp01_bounds _
  · decide

/-- C10 witness: the totality half applied to a concrete height-6
opponent (and the concrete raising input restated). -/
theorem c10_witness :
    (∃ q, GameAnalyzer.assessCrosshairPlacement chC1 [enC1] = some q ∧
      inUnit q) ∧
    GameAnalyzer.assessCrosshairPlacement chC1 [enC10] = none :=
  c10_placement_totality chC1 [enC1] enC1 (by decide) (by decide)

/-! ### Claim C3 -/

/-- A frame payload containing exactly one opponent. -/
def fdC3 : FrameData :=
  { crosshair := none
    enemies := [⟨"enemy", 1, (0, 0, 10, 20), (5, 10)⟩]
    ui_elements := [], movement := none }

/-- A behavior history of 40 frames, every one containing an opponent. -/
def stC3 : BehaviorAnalyzer.State :=
  { history_size := 1000, behavior_history := List.replicate 40 fdC3 }

/-- C3 counterexample: with 40 stored frames all containing opponents,
the fraction of the last 20 frames with an opponent is `20/20 = 1 > 0.5`
— so the claim demands `aggressive_play` — yet the code classifies
nothing, because it divides the last-20 count by the WHOLE history
length (`20/40 = 0.5`, not `> 0.5`). -/
theorem c3_counterexample :
    BehaviorAnalyzer.analyzeEngagementPatterns stC3 = none ∧
    ((GameAnalyzer.lastN 20 stC3.behavior_history).filter
      (fun f => !f.enemies.isEmpty)).length = 20 ∧
    ((20 : ℚ)/20 > 5/10) := by
  refine ⟨?_, by decide, by norm_num⟩
  unfold BehaviorAnalyzer.analyzeEngagementPatterns
  rw [if_neg (by decide)]
  dsimp only
  rw [show ((GameAnalyzer.lastN 20 stC3.behavior_history).filter
        (fun f => !f.enemies.isEmpty)).length = 20 from by decide,
      show stC3.behavior_history.length = 40 from by decide]
  norm_num

/-- C3 (amended): for every behavior history with at least 20 stored
frames, with the ratio computed as (number of the LAST 20 frames
containing an opponent) divided by the WHOLE history length, the
classification is `aggressive_play` exactly when that ratio exceeds 0.5
and `passive_play` exactly when it is below 0.1. -/
theorem c3_amended (st : BehaviorAnalyzer.State)
    (h20 : 20 ≤ st.behavior_history.length) :
    ((BehaviorAnalyzer.analyzeEngagementPatterns st).map
        (fun p => p.pattern_type) = some "aggressive_play" ↔
      ((((GameAnalyzer.lastN 20 st.behavior_history).filter
          (fun f => !f.enemies.isEmpty)).length : ℚ)
        / (st.behavior_history.length : ℚ) > 5/10)) ∧
    ((BehaviorAnalyzer.analyzeEngagementPatterns st).map
        (fun p => p.pattern_type) = some "passive_play" ↔
      ((((GameAnalyzer.lastN 20 st.behavior_history).filter
          (fun f => !f.enemies.isEmpty)).length : ℚ)
        / (st.behavior_history.length : ℚ) < 1/10)) := by
  have hnlt : ¬ st.behavior_history.length < 20 := by omega
  unfold BehaviorAnalyzer.analyzeEngagementPatterns
  rw [if_neg hnlt]
  dsimp only
  set frac : ℚ := ((((GameAnalyzer.lastN 20 st.behavior_history).filter
      (fun f => !f.enemies.isEmpty)).length : ℕ) : ℚ)
    / (st.behavior_history.length : ℚ) with hfrac
  by_cases hagg : frac > 5/10
  · rw [if_pos hagg]
    refine ⟨⟨fun _ => hagg, fun _ => rfl⟩, ⟨?_, ?_⟩⟩
    · intro hcontra
      exact absurd (Option.some.inj hcontra)
        (show ¬ ("aggressive_play" = "passive_play") by decide)
    · intro hlt
      exact absurd hagg (by push_neg; linarith)
  · rw [if_neg hagg]
    by_cases hpas : frac < 1/10
    · rw [if_pos hpas]
      refine ⟨⟨?_, ?_⟩, ⟨fun _ => hpas, fun _ => rfl⟩⟩
      · intro hcontra
        exact absurd (Option.some.inj hcontra)
          (show ¬ ("passive_play" = "aggressive_play") by decide)
      · intro hgt
        exact absurd hgt hagg
    · rw [if_neg hpas]
      constructor
      · exact ⟨fun h => Option.noConfusion h, fun h => absurd h hagg⟩
      · exact ⟨fun h => Option.noConfusion h, fun h => absurd h hpas⟩

/-- A behavior history of 21 all-opponent frames (ratio `20/21 > 0.5`). -/
def stC3w : BehaviorAnalyzer.State :=
  { history_size := 1000, behavior_history := List.replicate 21 fdC3 }

/-- C3 witness: the amended characterization instantiated at 21 stored
frames concludes `aggressive_play`. -/
theorem c3_witness :
    (BehaviorAnalyzer.analyzeEngagementPatterns stC3w).map
      (fun p => p.pattern_type) = some "aggressive_play" :=
  (c3_amended stC3w (by decide)).1.mpr (by norm_num [stC3w, fdC3,
    GameAnalyzer.lastN])

/-! ### Claim C7 -/

/-- C7 counterexample: an update payload containing only
`playtime_hours` leaves the profile — including `playtime_hours` —
completely unchanged, refuting "an update containing playtime_hours
overwrites playtime_hours". -/
theorem c7_counterexample :
    Coach.updatePlayerProfile Coach.defaultProfile
      { playtime_hours := some 10 } = Coach.defaultProfile ∧
    Coach.defaultProfile.playtime_hours ≠ 10 := by
  exact ⟨rfl, by decide⟩

/-- C7 (amended): `update_player_profile` merges exactly the five
handled fields (`skill_level`, `primary_role`, `strengths`,
`weaknesses`, `goals`) — each overwritten when present in the payload
and kept otherwise — while `playtime_hours` is NEVER overwritten; in
particular a weaknesses-only update changes only `weaknesses`. -/
theorem c7_amended (p : PlayerProfile) (u : Coach.ProfileUpdate)
    (ws : List String) :
    ((Coach.updatePlayerProfile p u).skill_level
        = u.skill_level.getD p.skill_level) ∧
    ((Coach.updatePlayerProfile p u).primary_role
        = u.primary_role.getD p.primary_role) ∧
    ((Coach.updatePlayerProfile p u).strengths
        = u.strengths.getD p.strengths) ∧
    ((Coach.updatePlayerProfile p u).weaknesses
        = u.weaknesses.getD p.weaknesses) ∧
    ((Coach.updatePlayerProfile p u).goals = u.goals.getD p.goals) ∧
    ((Coach.updatePlayerProfile p u).playtime_hours = p.playtime_hours) ∧
    (Coach.updatePlayerProfile p { weaknesses := some ws }
        = { p with weaknesses := ws }) :=
  ⟨rfl, rfl, rfl, rfl, rfl, rfl, rfl⟩

/-! ### Claim C8 -/

/-- C8: for every frame payload whose opponent list is empty,
`GameAnalyzer._assess_crosshair_placement` returns exactly 0.5,
regardless of the crosshair position. -/
theorem c8_no_opponents_neutral_score (ch : CrosshairInfo) :
    GameAnalyzer.assessCrosshairPlacement ch [] = some (1/2) := rfl

/-! ### Claim C5 -/

namespace Coach

lemma insertTipDesc_perm (t : CoachingTip) (l : List CoachingTip) :
    List.Perm (insertTipDesc t l) (t :: l) := by
  induction l with
  | nil => exact List.Perm.refl _
  | cons x xs ih =>
      unfold insertTipDesc
      split
      · exact (ih.cons x).trans (List.Perm.swap t x xs)
      · exact List.Perm.refl _

lemma sortTipsDesc_perm (l : List CoachingTip) :
    List.Perm (sortTipsDesc l) l := by
  induction l with
  | nil => exact List.Perm.refl _
  | cons x xs ih =>
      exact (insertTipDesc_perm x (sortTipsDesc xs)).trans (ih.cons x)

lemma insertTipDesc_sorted (t : CoachingTip) {l : List CoachingTip}
    (h : l.Pairwise (fun a b => b.priority ≤ a.priority)) :
    (insertTipDesc t l).Pairwise (fun a b => b.priority ≤ a.priority) := by
  induction l with
  | nil => exact List.pairwise_singleton _ _
  | cons x xs ih =>
      rcases List.pairwise_cons.mp h with ⟨hx, hxs⟩
      unfold insertTipDesc
      split
      · rename_i hlt
        refine List.pairwise_cons.mpr ⟨?_, ih hxs⟩
        intro y hy
        rcases List.mem_cons.mp
            ((insertTipDesc_perm t xs).mem_iff.mp hy) with rfl | h2
        · exact le_of_lt hlt
        · exact hx y h2
      · rename_i hge
        refine List.pairwise_cons.mpr ⟨?_, h⟩
        intro y hy
        rcases List.mem_cons.mp hy with rfl | h2
        · exact not_lt.mp hge
        · exact le_trans (hx y h2) (not_lt.mp hge)

lemma sortTipsDesc_sorted (l : List CoachingTip) :
    (sortTipsDesc l).Pairwise (fun a b => b.priority ≤ a.priority) := by
  induction l with
  | nil => simp [sortTipsDesc]
  | cons x xs ih => exact insertTipDesc_sorted x ih

lemma dedupByCategory_sublist :
    ∀ (l : List CoachingTip) (seen : List String),
      (dedupByCategory l seen).Sublist l := by
  intro l
  induction l with
  | nil => intro seen; exact List.Sublist.refl _
  | cons t ts ih =>
      intro seen
      unfold dedupByCategory
      split
      · exact (ih seen).cons t
      · exact (ih (t.category :: seen)).cons₂ t

lemma dedupByCategory_distinct :
    ∀ (l : List CoachingTip) (seen : List String),
      (dedupByCategory l seen).Pairwise
        (fun a b => a.category ≠ b.category) ∧
      ∀ x ∈ dedupByCategory l seen, x.category ∉ seen := by
  intro l
  induction l with
  | nil =>
      intro seen
      exact ⟨List.Pairwise.nil, fun x hx => absurd hx (List.not_mem_nil x)⟩
  | cons t ts ih =>
      intro seen
      unfold dedupByCategory
      split
      · exact ih seen
      · rename_i hm
        obtain ⟨hpw, hnot⟩ := ih (t.category :: seen)
        refine ⟨List.pairwise_cons.mpr ⟨?_, hpw⟩, ?_⟩
        · intro y hy hcat
          exact hnot y hy (by rw [← hcat]; exact List.mem_cons_self _ _)
        · intro x hx
          rcases List.mem_cons.mp hx with rfl | h2
          · exact hm
          · exact fun hc =>
              hnot x h2 (List.mem_cons_of_mem _ hc)

lemma dedupByCategory_max :
    ∀ (l : List CoachingTip) (seen : List String),
      l.Pairwise (fun a b => b.priority ≤ a.priority) →
      ∀ x ∈ dedupByCategory l seen,
        x.category ∉ seen ∧
        ∀ u ∈ l, u.category = x.category → u.priority ≤ x.priority := by
  intro l
  induction l with
  | nil => intro seen _ x hx; cases hx
  | cons t ts ih =>
      intro seen hs x hx
      rcases List.pairwise_cons.mp hs with ⟨hrel, hts⟩
      unfold dedupByCategory at hx
      split at hx
      · rename_i hm
        obtain ⟨hnot, hall⟩ := ih seen hts x hx
        refine ⟨hnot, ?_⟩
        intro u hu hcat
        rcases List.mem_cons.mp hu with rfl | h2
        · exact absurd (hcat ▸ hm) hnot
        · exact hall u h2 hcat
      · rename_i hm
        rcases List.mem_cons.mp hx with rfl | h2
        · refine ⟨hm, ?_⟩
          intro u hu hcat
          rcases List.mem_cons.mp hu with rfl | h2
          · exact le_refl _
          · exact hrel u h2
        · obtain ⟨hnot, hall⟩ := ih (t.category :: seen) hts x h2
          refine ⟨fun hc => hnot (List.mem_cons_of_mem _ hc), ?_⟩
          intro u hu hcat
          rcases List.mem_cons.mp hu with rfl | h3
          · exact absurd (hcat ▸ List.mem_cons_self _ _) hnot
          · exact hall u h3 hcat

/-- The specification of `_filter_tips`: distinct categories, each kept
tip has the maximum priority of its category among the candidates, and
the output is in non-increasing priority order. -/
lemma filterTips_spec (tips : List CoachingTip) :
    (filterTips tips).Pairwise (fun a b => a.category ≠ b.category) ∧
    (filterTips tips).Pairwise (fun a b => b.priority ≤ a.priority) ∧
    ∀ x ∈ filterTips tips, ∀ u ∈ tips,
      u.category = x.category → u.priority ≤ x.priority := by
  refine ⟨(dedupByCategory_distinct (sortTipsDesc tips) []).1, ?_, ?_⟩
  · exact List.Pairwise.sublist (dedupByCategory_sublist _ [])
      (sortTipsDesc_sorted tips)
  · intro x hx u hu hcat
    have hmax := dedupByCategory_max (sortTipsDesc tips) []
      (sortTipsDesc_sorted tips) x hx
    exact hmax.2 u ((sortTipsDesc_perm tips).mem_iff.mpr hu) hcat

end Coach

/-- The property C5 asserts of a returned tip list `r` for candidate
list `cands`: pairwise-distinct categories, per-category maximal
priority, descending priority order, at most 3 tips. -/
def tipsOutputOk (cands r : List CoachingTip) : Prop :=
  r.Pairwise (fun a b => a.category ≠ b.category) ∧
  (∀ x ∈ r, ∀ u ∈ cands,
    u.category = x.category → u.priority ≤ x.priority) ∧
  r.Pairwise (fun a b => b.priority ≤ a.priority) ∧
  r.length ≤ 3

/-- C5: in a single `process_analysis` call, for every candidate tip
list, the returned tips have pairwise distinct categories, each is the
highest-priority candidate of its category, they are listed in
descending priority order, and at most 3 are returned; this holds both
for `_filter_tips` followed by the `[:3]` truncation on an arbitrary
candidate list and for the list `process_analysis` returns. -/
theorem c5_category_dedup_priority :
    (∀ tips : List CoachingTip,
      tipsOutputOk tips ((Coach.filterTips tips).take 3)) ∧
    (∀ (st : Coach.State) (t : ℚ) (ad : Coach.AnalysisPayload),
      tipsOutputOk (Coach.candidateTips t ad)
        (Coach.processAnalysis st t (some ad)).1) ∧
    (∀ (st : Coach.State) (t : ℚ),
      (Coach.processAnalysis st t none).1 = []) := by
  have hmain : ∀ tips : List CoachingTip,
      tipsOutputOk tips ((Coach.filterTips tips).take 3) := by
    intro tips
    obtain ⟨hdist, hsort, hmax⟩ := Coach.filterTips_spec tips
    refine ⟨?_, ?_, ?_, ?_⟩
    · exact List.Pairwise.sublist (List.take_sublist _ _) hdist
    · intro x hx u hu hcat
      exact hmax x (List.take_subset _ _ hx) u hu hcat
    · exact List.Pairwise.sublist (List.take_sublist _ _) hsort
    · exact List.length_take_le _ _
  refine ⟨hmain, ?_, fun st t => rfl⟩
  intro st t ad
  show tipsOutputOk _ ((Coach.processAnalysis st t (some ad)).1)
  unfold Coach.processAnalysis
  dsimp only
  split
  · exact ⟨List.Pairwise.nil, by simp, List.Pairwise.nil, by simp⟩
  · exact hmain (Coach.candidateTips t ad)

/-- Two same-category candidates of priorities 3 and 5. -/
def tipAW : CoachingTip := ⟨"a", "movement", 3, "m1", 0, [], true⟩

/-- The higher-priority duplicate. -/
def tipBW : CoachingTip := ⟨"b", "movement", 5, "m2", 0, [], true⟩

/-- C5 witness: on the concrete duplicate-category candidate list the
kept `movement` tip dominates the dropped one, and at most 3 tips
survive. -/
theorem c5_witness :
    tipAW.priority ≤ tipBW.priority ∧
    ((Coach.filterTips [tipAW, tipBW]).take 3).length ≤ 3 :=
  ⟨(c5_category_dedup_priority.1 [tipAW, tipBW]).2.1 tipBW (by decide)
      tipAW (by decide) (by decide),
   (c5_category_dedup_priority.1 [tipAW, tipBW]).2.2.2⟩

/-! ### Claim C4 -/

/-- C4: if a `process_analysis` call at time `t1` returned at least one
tip (so it stamped `last_tip_time = t1`), then a second call less than
the 5-second cooldown later returns the empty list, whatever its
payload. -/
theorem c4_cooldown_empty (st : Coach.State) (t1 t2 : ℚ)
    (ad1 ad2 : Option Coach.AnalysisPayload)
    (hcd : st.tip_cooldown = 5)
    (h1 : (Coach.processAnalysis st t1 ad1).1 ≠ [])
    (h2 : t2 - t1 < 5) :
    (Coach.processAnalysis (Coach.processAnalysis st t1 ad1).2 t2 ad2).1
      = [] := by
  rcases ad1 with _ | ad
  · exact absurd rfl h1
  · unfold Coach.processAnalysis at h1 ⊢
    dsimp only at h1 ⊢
    by_cases hc1 : t1 - st.last_tip_time < st.tip_cooldown
    · rw [if_pos hc1] at h1
      exact absurd rfl h1
    · rw [if_neg hc1] at h1 ⊢
      dsimp only at h1 ⊢
      by_cases hfe : (Coach.filterTips (Coach.candidateTips t1 ad)).isEmpty
      · rw [List.isEmpty_iff.mp hfe] at h1
        exact absurd rfl h1
      · rw [if_neg hfe]
        rcases ad2 with _ | ad2'
        · rfl
        · dsimp only
          rw [if_pos (by rw [hcd]; exact h2)]

/-- A performance snapshot that triggers tip generation everywhere. -/
def perfW : PerformanceMetrics :=
  { accuracy := 0, reaction_time := 3/10, crosshair_placement := 0
    movement_efficiency := 0, game_sense := 0, overall_score := 0 }

/-- An analysis payload carrying only that snapshot. -/
def adW : Coach.AnalysisPayload :=
  { performance := some perfW, events := [], insights := [] }

/-- Filtering never empties a non-empty candidate list (the head of the
sorted list is always kept). -/
lemma filterTips_ne_nil {l : List CoachingTip} (h : l ≠ []) :
    Coach.filterTips l ≠ [] := by
  unfold Coach.filterTips
  have hs : Coach.sortTipsDesc l ≠ [] := by
    intro h0
    have hlen := (Coach.sortTipsDesc_perm l).length_eq
    rw [h0] at hlen
    exact h (List.length_eq_zero.mp hlen.symm)
  cases hsd : Coach.sortTipsDesc l with
  | nil => exact absurd hsd hs
  | cons x xs =>
      unfold Coach.dedupByCategory
      rw [if_neg (List.not_mem_nil x.category)]
      exact List.cons_ne_nil _ _

/-- C4 witness: from a fresh coach state, a tip-producing call at
`t = 10` followed by a call at `t = 12` (inside the 5-second window)
yields the empty list. -/
theorem c4_witness :
    (Coach.processAnalysis
      (Coach.processAnalysis (Coach.initState) 10 (some adW)).2
      12 (some adW)).1 = [] := by
  have hcand : Coach.candidateTips 10 adW ≠ [] := by
    unfold Coach.candidateTips adW Coach.generatePerformanceTips
    norm_num [perfW]
    exact List.cons_ne_nil _ _
  have h1 : (Coach.processAnalysis Coach.initState 10 (some adW)).1
      ≠ [] := by
    unfold Coach.processAnalysis
    dsimp only
    rw [if_neg (by norm_num [Coach.initState])]
    dsimp only
    intro hnil
    rw [List.take_eq_nil_iff] at hnil
    rcases hnil with h3 | hfil
    · cases h3
    · exact filterTips_ne_nil hcand hfil
  exact c4_cooldown_empty (Coach.initState) 10 12 (some adW) (some adW)
    rfl h1 (by norm_num)

/-! ### Claim C6 -/

namespace GameAnalyzer

/-- The `enemy_detected` events of an event history, oldest first. -/
def enemyEvents (l : List GameEvent) : List GameEvent :=
  l.filter (fun e => e.event_type == "enemy_detected")

/-- The C6 invariant: consecutive `enemy_detected` events in the event
history are at least 2 seconds apart. -/
def EnemyGapOK (l : List GameEvent) : Prop :=
  List.Chain' (fun a b => a.timestamp + 2 ≤ b.timestamp) (enemyEvents l)

instance enemyGapTrans :
    IsTrans GameEvent (fun a b => a.timestamp + 2 ≤ b.timestamp) :=
  ⟨fun _ _ _ h1 h2 =>
    le_trans h1 (le_trans (le_add_of_nonneg_right (by norm_num)) h2)⟩

lemma getLast?_cons_or {α : Type} (a : α) (l : List α) :
    (a :: l).getLast? = (l.getLast?).or (some a) := by
  cases l with
  | nil => rfl
  | cons x xs =>
      rw [List.getLast?_cons_cons]
      obtain ⟨y, hy⟩ := Option.isSome_iff_exists.mp
        (List.getLast?_isSome.mpr (List.cons_ne_nil x xs))
      rw [hy]
      rfl

/-- The backward `break`ing scan of `_has_recent_enemy_event` finds
exactly the last matching event of the history. -/
lemma lastEventOfType_eq_getLast (ty : String) (l : List GameEvent) :
    lastEventOfType ty l =
      (l.filter (fun e => e.event_type == ty)).getLast? := by
  induction l with
  | nil => rfl
  | cons a as ih =>
      unfold lastEventOfType at ih ⊢
      rw [List.reverse_cons, List.find?_append, ih, List.filter_cons]
      by_cases hpa : (a.event_type == ty) = true
      · rw [if_pos hpa, getLast?_cons_or,
          List.find?_cons_of_pos ([] : List GameEvent) hpa]
      · rw [if_neg hpa, List.find?_cons_of_neg ([] : List GameEvent) hpa]
        cases (List.filter (fun e => e.event_type == ty) as).getLast? <;> rfl

/-- A failed cooldown guard means the most recent `enemy_detected`
event, if any, is at least 2 seconds old. -/
lemma hasRecentEnemyEvent_false {events : List GameEvent} {t : ℚ}
    (h : hasRecentEnemyEvent events t 2 = false) :
    ∀ e0, lastEventOfType "enemy_detected" events = some e0 →
      e0.timestamp + 2 ≤ t := by
  intro e0 he0
  unfold hasRecentEnemyEvent at h
  rw [he0] at h
  have : ¬ (t - e0.timestamp < 2) := by simpa using h
  linarith

lemma EnemyGapOK_sublist {l₁ l₂ : List GameEvent} (hs : l₁.Sublist l₂)
    (h : EnemyGapOK l₂) : EnemyGapOK l₁ :=
  List.Chain'.sublist h (List.Sublist.filter _ hs)

/-- Appending one event to a bounded history preserves the gap
invariant, provided a new `enemy_detected` event respects the guard. -/
lemma EnemyGapOK_appendBounded {cap : Nat} {l : List GameEvent}
    {e : GameEvent} (hg : EnemyGapOK l)
    (he : (e.event_type == "enemy_detected") = false ∨
      (∀ e0, lastEventOfType "enemy_detected" l = some e0 →
        e0.timestamp + 2 ≤ e.timestamp)) :
    EnemyGapOK (appendBounded cap l e) := by
  have happ : EnemyGapOK (l ++ [e]) := by
    unfold EnemyGapOK enemyEvents at hg ⊢
    rw [List.filter_append]
    by_cases hee : (e.event_type == "enemy_detected") = true
    · rw [show List.filter (fun x => x.event_type == "enemy_detected")
            ([e] : List GameEvent) = [e] from by
          rw [List.filter_cons, if_pos hee]
          rfl]
      rw [List.chain'_append]
      refine ⟨hg, List.chain'_singleton e, ?_⟩
      intro x hx y hy
      obtain rfl : e = y := by simpa using hy
      rcases he with hne | hguard
      · rw [hee] at hne
        cases hne
      · refine hguard x ?_
        rw [lastEventOfType_eq_getLast]
        exact hx
    · rw [show List.filter (fun x => x.event_type == "enemy_detected")
            ([e] : List GameEvent) = [] from by
          rw [List.filter_cons, if_neg hee]
          rfl]
      simpa using hg
  unfold appendBounded
  exact EnemyGapOK_sublist (List.drop_sublist _ _) happ

/-- Appending any number of non-enemy events preserves the invariant. -/
lemma EnemyGapOK_foldl_nonenemy {evs l : List GameEvent}
    (h : ∀ e ∈ evs, (e.event_type == "enemy_detected") = false)
    (hg : EnemyGapOK l) :
    EnemyGapOK (evs.foldl (appendBounded 1000) l) := by
  induction evs generalizing l with
  | nil => exact hg
  | cons e es ih =>
      rw [List.foldl_cons]
      refine ih (fun x hx => h x (List.mem_cons_of_mem _ hx)) ?_
      exact EnemyGapOK_appendBounded hg
        (Or.inl (h e (List.mem_cons_self _ _)))

lemma crosshairEventList_nonenemy (t : ℚ) (ch : CrosshairInfo) (pq : ℚ) :
    ∀ e ∈ crosshairEventList t ch pq,
      (e.event_type == "enemy_detected") = false := by
  unfold crosshairEventList
  split_ifs <;> intro e he
  · obtain rfl := List.mem_singleton.mp he
    rfl
  · obtain rfl := List.mem_singleton.mp he
    rfl
  · cases he

lemma movementEventList_nonenemy (t : ℚ) (fd : FrameData) :
    ∀ e ∈ movementEventList t fd,
      (e.event_type == "enemy_detected") = false := by
  intro e he
  unfold movementEventList at he
  rcases hm : fd.movement with _ | m <;> rw [hm] at he
  · cases he
  · dsimp only at he
    split at he
    · split at he
      · obtain rfl := List.mem_singleton.mp he
        rfl
      · cases he
    · cases he

/-- Every event list produced by `_detect_events` is either all
non-enemy events, or starts with the single guarded enemy event. -/
lemma detectEvents_cases {events : List GameEvent} {t : ℚ}
    {fd : FrameData} {evs : List GameEvent}
    (h : detectEvents events t fd = some evs) :
    (∀ e ∈ evs, (e.event_type == "enemy_detected") = false) ∨
    (∃ rest, evs =
        { event_type := "enemy_detected", timestamp := t
          confidence := 8/10
          data := [("enemy_count", (fd.enemies.length : ℚ))]
          position := fd.enemies.head?.map (fun e => e.center) } :: rest ∧
      hasRecentEnemyEvent events t 2 = false ∧
      ∀ e ∈ rest, (e.event_type == "enemy_detected") = false) := by
  have hsplit : ∀ (suffix : List GameEvent),
      (∀ e ∈ suffix, (e.event_type == "enemy_detected") = false) →
      evs = enemyEventList events t fd ++ suffix →
      (∀ e ∈ evs, (e.event_type == "enemy_detected") = false) ∨
      (∃ rest, evs =
          { event_type := "enemy_detected", timestamp := t
            confidence := 8/10
            data := [("enemy_count", (fd.enemies.length : ℚ))]
            position := fd.enemies.head?.map (fun e => e.center) }
            :: rest ∧
        hasRecentEnemyEvent events t 2 = false ∧
        ∀ e ∈ rest, (e.event_type == "enemy_detected") = false) := by
    intro suffix hsuf hevs
    unfold enemyEventList at hevs
    by_cases hcond : fd.enemies ≠ [] ∧ !hasRecentEnemyEvent events t 2
    · rw [if_pos hcond] at hevs
      right
      refine ⟨suffix, hevs, ?_, hsuf⟩
      have := hcond.2
      simpa using this
    · rw [if_neg hcond] at hevs
      left
      rw [hevs]
      simpa using hsuf
  unfold detectEvents at h
  rcases hcr : fd.crosshair with _ | ch <;> rw [hcr] at h
  · exact hsplit _ (movementEventList_nonenemy t fd)
      (Option.some.inj h).symm
  · dsimp only at h
    split at h
    · split at h
      · cases h
      · rename_i pq hpq
        refine hsplit (crosshairEventList t ch pq ++ movementEventList t fd)
          ?_ ?_
        · intro e he
          rcases List.mem_append.mp he with h1 | h2
          · exact crosshairEventList_nonenemy t ch pq e h1
          · exact movementEventList_nonenemy t fd e h2
        · rw [← List.append_assoc]
          exact (Option.some.inj h).symm
    · exact hsplit _ (movementEventList_nonenemy t fd)
        (Option.some.inj h).symm

/-- One ingestion step's event appends preserve the gap invariant. -/
lemma detectEvents_gap {events : List GameEvent} {t : ℚ} {fd : FrameData}
    {evs : List GameEvent}
    (hdet : detectEvents events t fd = some evs) (hg : EnemyGapOK events) :
    EnemyGapOK (evs.foldl (appendBounded 1000) events) := by
  rcases detectEvents_cases hdet with hall | ⟨rest, hevs, hrec, hrest⟩
  · exact EnemyGapOK_foldl_nonenemy hall hg
  · subst hevs
    rw [List.foldl_cons]
    refine EnemyGapOK_foldl_nonenemy hrest ?_
    refine EnemyGapOK_appendBounded hg (Or.inr ?_)
    intro e0 he0
    exact hasRecentEnemyEvent_false hrec e0 he0

/-- A successful metrics computation only touches
`performance_history`. -/
lemma calculatePerformanceMetrics_events {st : State}
    {m : PerformanceMetrics} {st' : State}
    (h : calculatePerformanceMetrics st = some (m, st')) :
    st'.events = st.events := by
  unfold calculatePerformanceMetrics at h
  split at h
  · cases h; rfl
  · split at h
    · cases h
    · cases h; rfl

end GameAnalyzer

/-- C6: ingestion preserves the invariant that consecutive
`enemy_detected` events in the event history are at least 2 seconds
apart, and a new `enemy_detected` event fires only when the most recent
such event in the history is at least 2 seconds old or none exists. -/
theorem c6_enemy_event_spacing (sq : ℚ → ℚ) (st : GameAnalyzer.State)
    (t : ℚ) (fd? : Option FrameData)
    (hinv : GameAnalyzer.EnemyGapOK st.events) :
    GameAnalyzer.EnemyGapOK
      ((GameAnalyzer.processFrameData sq st t fd?).2.events) ∧
    (∀ fd evs, fd? = some fd →
      GameAnalyzer.detectEvents st.events t fd = some evs →
      (∃ e ∈ evs, e.event_type = "enemy_detected") →
      ∀ e0, GameAnalyzer.lastEventOfType "enemy_detected" st.events
          = some e0 → e0.timestamp + 2 ≤ t) := by
  constructor
  · rcases fd? with _ | fd
    · exact hinv
    · unfold GameAnalyzer.processFrameData
      dsimp only
      split
      · exact hinv
      · split
        · exact hinv
        · rename_i evs hdet
          split
          · exact GameAnalyzer.detectEvents_gap hdet hinv
          · rename_i p hperf
            rw [GameAnalyzer.calculatePerformanceMetrics_events hperf]
            exact GameAnalyzer.detectEvents_gap hdet hinv
  · rintro fd evs - hdet ⟨e, he, hee⟩ e0 he0
    rcases GameAnalyzer.detectEvents_cases hdet with hall | ⟨_, _, hrec, _⟩
    · have := hall e he
      rw [beq_iff_eq.mpr hee] at this
      cases this
    · exact GameAnalyzer.hasRecentEnemyEvent_false hrec e0 he0

/-- A frame payload with one opponent (used as the C6 ingestion step). -/
def fdC6 : FrameData :=
  { crosshair := none
    enemies := [⟨"enemy", 1, (0, 0, 10, 20), (5, 10)⟩]
    ui_elements := [], movement := none }

/-- C6 witness: the invariant holds after ingesting a concrete
opponent-bearing frame into a fresh analyzer. -/
theorem c6_witness :
    GameAnalyzer.EnemyGapOK
      ((GameAnalyzer.processFrameData (fun q => q)
        (GameAnalyzer.initState 0) 0 (some fdC6)).2.events) :=
  (c6_enemy_event_spacing (fun q => q) (GameAnalyzer.initState 0) 0
    (some fdC6)
    (by simp [GameAnalyzer.EnemyGapOK, GameAnalyzer.enemyEvents,
      GameAnalyzer.initState])).1

/-! ### Claim C9 -/

/-- C9: an empty/absent frame payload is a no-op returning an empty
result and leaving the state unchanged, for
`GameAnalyzer.process_frame_data`, `BehaviorAnalyzer.analyze_behavior`
and `FrameProcessor.process_frame` alike. -/
theorem c9_empty_input_noop :
    (∀ (sq : ℚ → ℚ) (st : GameAnalyzer.State) (t : ℚ),
      GameAnalyzer.processFrameData sq st t none = (none, st)) ∧
    (∀ (sq : ℚ → ℚ) (st : BehaviorAnalyzer.State),
      BehaviorAnalyzer.analyzeBehavior sq st none = (none, st)) ∧
    (∀ (Img : Type) (dc : Img → Option CrosshairInfo)
      (de du : Img → List GameElement)
      (dm : List Img → Option MovementData)
      (st : FrameProcessor.State Img),
      FrameProcessor.processFrame dc de du dm st none = (none, st)) :=
  ⟨fun _ _ _ => rfl, fun _ _ => rfl, fun _ _ _ _ _ _ => rfl⟩

end VC
